import Mathlib

/-!
# RenogyChargeController: register decoding

A shallow embedding of `src/src/RenogyChargeController.{h,cpp}`.

* `uint8_t`, `uint16_t` and `uint32_t` values are natural numbers; every store into
  a narrower object reduces modulo `2 ^ w` explicitly.
* `float` and `double` values are the rationals they denote.  Every operation and every
  conversion rounds to the nearest representable value, ties to even, with 24
  significant bits for `float` and 53 for `double` (the ESP32 class of targets the
  library was written for).  All quantities that occur here lie between `0.01` and
  `5 * 10 ^ 7`, far inside the normal range of both formats, so the exponent is left
  unbounded.
* `long last_update_time` is an integer; `now` stands for the value of `millis()`
  after its conversion to `long`.
* A `char[40]` member is the list of its bytes.  The local working buffers are read
  back only as strings, so they are the lists of their characters before the
  terminator.
* The `ModbusMaster` node is an external collaborator: the outcome of a read
  transaction is an input, and the requests issued are recorded in the node.
-/

namespace Renogy

/-! ## Machine arithmetic -/

/-- Conversion to `uint8_t`: reduction modulo `2 ^ 8`. -/
def to_uint8 (v : ℕ) : ℕ := v % 256

/-- Conversion to `uint16_t`: reduction modulo `2 ^ 16`. -/
def to_uint16 (v : ℕ) : ℕ := v % 65536

/-- Conversion to `uint32_t`: reduction modulo `2 ^ 32`. -/
def to_uint32 (v : ℕ) : ℕ := v % 4294967296

/-- Nearest integer to a rational, ties to the even neighbour. -/
def roundHalfEven (x : ℚ) : ℤ :=
  let f := ⌊x⌋
  let r := x - f
  if r < 1 / 2 then f else if 1 / 2 < r then f + 1 else if f % 2 = 0 then f else f + 1

/-- Number of binary digits of `n` (`0` for `n = 0`); `fuel` bounds the recursion and
any `fuel ≥ n` is enough. -/
def bitLength : ℕ → ℕ → ℕ
  | 0, _ => 0
  | fuel + 1, n => if n = 0 then 0 else bitLength fuel (n / 2) + 1

/-- Exponent `e` of the unit in the last place of a nonzero `x` at precision `p`:
the one with `2 ^ (p - 1) ≤ |x| / 2 ^ e < 2 ^ p`. -/
def ulpExp (p : ℕ) (x : ℚ) : ℤ :=
  let e0 : ℤ :=
    (bitLength x.num.natAbs x.num.natAbs : ℤ) - (bitLength x.den x.den : ℤ) + 1 - (p : ℤ)
  if |x| < (2 : ℚ) ^ (p - 1) * (2 : ℚ) ^ e0 then e0 - 1 else e0

/-- Rounding of a rational to `p` significant binary digits, to nearest, ties to even. -/
def roundBin (p : ℕ) (x : ℚ) : ℚ :=
  if x = 0 then 0 else (roundHalfEven (x / (2 : ℚ) ^ ulpExp p x) : ℚ) * (2 : ℚ) ^ ulpExp p x

/-- Rounding to `float` (binary32, 24 significant bits). -/
def toFloat (x : ℚ) : ℚ := roundBin 24 x

/-- Rounding to `double` (binary64, 53 significant bits). -/
def toDouble (x : ℚ) : ℚ := roundBin 53 x

/-- The `double` literal `.1`. -/
def lit_0_1 : ℚ := toDouble (1 / 10)

/-- The `double` literal `.01`. -/
def lit_0_01 : ℚ := toDouble (1 / 100)

/-- The `double` literal `1.8`. -/
def lit_1_8 : ℚ := toDouble (9 / 5)

/-- The expression `reg * .1` assigned to a `float`: the register is converted to
`double` (exactly), multiplied in `double`, and the product converted to `float`. -/
def scale_tenth (reg : ℕ) : ℚ := toFloat (toDouble ((reg : ℚ) * lit_0_1))

/-- The expression `reg * .01` assigned to a `float`. -/
def scale_hundredth (reg : ℕ) : ℚ := toFloat (toDouble ((reg : ℚ) * lit_0_01))

/-- The expression `(t * 1.8) + 32` assigned to a `float`, for a `uint8_t` value `t`:
both operations are carried out in `double`. -/
def fahrenheit (t : ℕ) : ℚ := toFloat (toDouble (toDouble ((t : ℚ) * lit_1_8) + 32))

/-! ## The snapshots (`RenogyChargeController.h`) -/

/-- The struct `Controller_data`, fields in declaration order. -/
structure Controller_data where
  battery_soc : ℕ
  battery_voltage : ℚ
  battery_charging_amps : ℚ
  battery_temperature : ℕ
  controller_temperature : ℕ
  load_voltage : ℚ
  load_amps : ℚ
  load_watts : ℕ
  solar_panel_voltage : ℚ
  solar_panel_amps : ℚ
  solar_panel_watts : ℕ
  min_battery_voltage_today : ℚ
  max_battery_voltage_today : ℚ
  max_charging_amps_today : ℚ
  max_discharging_amps_today : ℚ
  max_charge_watts_today : ℕ
  max_discharge_watts_today : ℕ
  charge_amphours_today : ℕ
  discharge_amphours_today : ℕ
  charge_watthours_today : ℕ
  discharge_watthours_today : ℕ
  controller_uptime_days : ℕ
  total_battery_overcharges : ℕ
  total_battery_fullcharges : ℕ
  battery_temperatureF : ℚ
  controller_temperatureF : ℚ
  battery_charging_watts : ℚ
  last_update_time : ℤ
  controller_connected : Bool
  deriving DecidableEq

/-- The struct `Controller_info`, fields in declaration order.  Each of the three
`char[40]` members is the list of its bytes; the C string it holds is `c_str` of
that list. -/
structure Controller_info where
  voltage_rating : ℕ
  amp_rating : ℕ
  discharge_amp_rating : ℕ
  type : ℕ
  controller_name : ℕ
  software_version : List Char
  hardware_version : List Char
  serial_number : List Char
  modbus_address : ℕ
  wattage_rating : ℚ
  last_update_time : ℤ
  deriving DecidableEq

/-! ## The Modbus node -/

/-- Status byte `ModbusMaster::ku8MBSuccess`. -/
def ku8MBSuccess : ℕ := 0

/-- Size of the node's transmit buffer, `ModbusMaster::ku8MaxBufferSize`. -/
def ku8MaxBufferSize : ℕ := 64

/-- Outcome of one `readHoldingRegisters` transaction: the status byte it returns and
the response buffer that `getResponseBuffer` then reads. -/
structure Transaction where
  result : ℕ
  getResponseBuffer : ℕ → ℕ

/-- A request issued to the node. -/
inductive Request where
  | readHoldingRegisters (address qty : ℕ)
  | writeSingleRegister (address value : ℕ)
  deriving DecidableEq

/-- The `ModbusMaster _node` member as this class drives it: the requests issued so
far, oldest first, and the transmit buffer. -/
structure ModbusMaster where
  requests : List Request
  transmit_buffer : List ℕ
  deriving DecidableEq

/-- The call `ModbusMaster::setTransmitBuffer(index, value)`: stores the word when the index
is inside the buffer. -/
def ModbusMaster.setTransmitBuffer (node : ModbusMaster) (index value : ℕ) : ModbusMaster :=
  if index < ku8MaxBufferSize then
    { node with transmit_buffer := node.transmit_buffer.set index (to_uint16 value) }
  else node

/-- Records a request issued to the node. -/
def ModbusMaster.issue (node : ModbusMaster) (r : Request) : ModbusMaster :=
  { node with requests := node.requests ++ [r] }

/-! ## The class `RenogyChargeController` -/

/-- Constant `num_data_registers`. -/
def num_data_registers : ℕ := 35

/-- Constant `num_info_registers`. -/
def num_info_registers : ℕ := 17

/-- The object state: the two public snapshots, the node, and the file-scope counter
`static uint32_t i` that `update` advances. -/
structure RenogyChargeController where
  renogy_data : Controller_data
  renogy_info : Controller_info
  node : ModbusMaster
  i : ℕ
  deriving DecidableEq

/-- The copy loop `for (j = 0; j < n; j++) regs[j] = _node.getResponseBuffer(j);`
into a local `uint16_t` array of `n` elements. -/
def copy_registers (n : ℕ) (txn : Transaction) : List ℕ :=
  (List.range n).map fun j => to_uint16 (txn.getResponseBuffer j)

/-- Success branch of `read_data_registers` (lines 43-93).  Each field is assigned at
most once there, so the assignments are collected in one record update; the values
that later assignments read back (`battery_voltage`, `battery_charging_amps`, the two
temperatures) are named first, as stored. -/
def decode_data (regs : List ℕ) (now : ℤ) (d0 : Controller_data) : Controller_data :=
  let data_registers := fun j => regs.getD j 0
  let battery_voltage := scale_tenth (data_registers 1)
  let battery_charging_amps := scale_tenth (data_registers 2)
  let raw_data := to_uint16 (data_registers 3)
  let controller_temperature := to_uint8 (raw_data / 256)
  let battery_temperature := to_uint8 (raw_data % 256)
  { d0 with
    controller_connected := true
    battery_soc := to_uint8 (data_registers 0)
    battery_voltage := battery_voltage
    battery_charging_amps := battery_charging_amps
    battery_charging_watts := toFloat (battery_voltage * battery_charging_amps)
    controller_temperature := controller_temperature
    battery_temperature := battery_temperature
    controller_temperatureF := fahrenheit controller_temperature
    battery_temperatureF := fahrenheit battery_temperature
    load_voltage := scale_tenth (data_registers 4)
    load_amps := scale_hundredth (data_registers 5)
    load_watts := to_uint8 (data_registers 6)
    solar_panel_voltage := scale_tenth (data_registers 7)
    solar_panel_amps := scale_hundredth (data_registers 8)
    solar_panel_watts := to_uint8 (data_registers 9)
    min_battery_voltage_today := scale_tenth (data_registers 11)
    max_battery_voltage_today := scale_tenth (data_registers 12)
    max_charging_amps_today := scale_hundredth (data_registers 13)
    max_discharging_amps_today := scale_tenth (data_registers 14)
    max_charge_watts_today := to_uint8 (data_registers 15)
    max_discharge_watts_today := to_uint8 (data_registers 16)
    charge_amphours_today := to_uint8 (data_registers 17)
    discharge_amphours_today := to_uint8 (data_registers 18)
    charge_watthours_today := to_uint8 (data_registers 19)
    discharge_watthours_today := to_uint8 (data_registers 20)
    controller_uptime_days := to_uint8 (data_registers 21)
    total_battery_overcharges := to_uint8 (data_registers 22)
    total_battery_fullcharges := to_uint8 (data_registers 23)
    last_update_time := now }

/-- Failure branch of `read_data_registers` (lines 98-107); `battery_charging_amps` is
assigned `0` twice there. -/
def reset_data (d0 : Controller_data) : Controller_data :=
  { d0 with
    controller_connected := false
    battery_voltage := 0
    battery_charging_amps := 0
    battery_soc := 0
    controller_temperature := 0
    battery_temperature := 0
    solar_panel_amps := 0
    solar_panel_watts := 0
    battery_charging_watts := 0 }

/-- The method `RenogyChargeController::read_data_registers`.  `txn` is what the single
transaction `_node.readHoldingRegisters(0x100, num_data_registers)` yields and `now`
the clock reading; the result is the returned `bool` and the object afterwards. -/
def read_data_registers (txn : Transaction) (now : ℤ) (self : RenogyChargeController) :
    Bool × RenogyChargeController :=
  let self := { self with
    node := self.node.issue (Request.readHoldingRegisters 0x100 num_data_registers) }
  let result := to_uint8 txn.result
  if result = ku8MBSuccess then
    let data_registers := copy_registers num_data_registers txn
    (true, { self with renogy_data := decode_data data_registers now self.renogy_data })
  else
    (false, { self with renogy_data := reset_data self.renogy_data })

/-- Modelled from the spec: the C library routine `itoa(value, buffer, 10)`, which is
not part of the repository, writes "the decimal value converted to its digit-string
form": the decimal digits of `value`, most significant first, after a minus sign when
`value` is negative.  The result is the string held in the local buffer afterwards. -/
def itoa (value : ℤ) : List Char :=
  if value < 0 then '-' :: Nat.toDigits 10 value.natAbs else Nat.toDigits 10 value.natAbs

/-- The terminator of a C string, the zero byte. -/
def NUL : Char := Char.ofNat 0

/-- The C string held in a `char` array: the bytes before the first terminator. -/
def c_str (bytes : List Char) : List Char := bytes.takeWhile fun c => c ≠ NUL

/-- The C library routine `strcat(dest, src)` on the local working buffers, which are
read back only as strings: the string held in `dest` afterwards. -/
def strcat (dest src : List Char) : List Char := dest ++ src

/-- The C library routine `strcpy(dest, src)` into a member array: the bytes of `dest`
afterwards, for the source string `src`.  The characters of `src` and one terminator
are written at the start of `dest`; the bytes of `dest` behind them are not written. -/
def strcpy (dest src : List Char) : List Char := src ++ NUL :: dest.drop (src.length + 1)

/-- Size of the `char` buffers `buffer1`, `buffer2` and of the three string members. -/
def buffer_size : ℕ := 40

/-- A `char[40]` array that holds the string `s`, with zero bytes behind it. -/
def char_array (s : String) : List Char :=
  s.data ++ List.replicate (buffer_size - s.data.length) NUL

/-- Conversion of a `uint16_t` register to `int` for the call of `itoa`; `int` has at
least 32 bits on the targets of the library, so the value is kept. -/
def uint16_to_int (v : ℕ) : ℤ := (v : ℤ)

/-- Success branch of `read_info_registers` (lines 123-179).  The local `raw_data` is
the `uint8_t` declared on line 118; `controller_name` is not assigned. -/
def decode_info (regs : List ℕ) (now : ℤ) (i0 : Controller_info) : Controller_info :=
  let info_registers := fun j => regs.getD j 0
  let raw_data := to_uint8 (info_registers 0)
  let voltage_rating := to_uint8 (raw_data / 256)
  let amp_rating := to_uint8 (raw_data % 256)
  let wattage_rating := toFloat ((voltage_rating * amp_rating : ℕ) : ℚ)
  let raw_data := to_uint8 (info_registers 1)
  let discharge_amp_rating := to_uint8 (raw_data / 256)
  let type := to_uint8 (raw_data % 256)
  let buffer1 := itoa (uint16_to_int (info_registers 10))
  let buffer2 := itoa (uint16_to_int (info_registers 11))
  let buffer1 := strcat buffer1 buffer2
  let software_version := strcpy i0.software_version buffer1
  let buffer1 := itoa (uint16_to_int (info_registers 12))
  let buffer2 := itoa (uint16_to_int (info_registers 13))
  let buffer1 := strcat buffer1 buffer2
  let hardware_version := strcpy i0.hardware_version buffer1
  let buffer1 := itoa (uint16_to_int (info_registers 14))
  let buffer2 := itoa (uint16_to_int (info_registers 15))
  let buffer1 := strcat buffer1 buffer2
  let serial_number := strcpy i0.serial_number buffer1
  { i0 with
    voltage_rating := voltage_rating
    amp_rating := amp_rating
    wattage_rating := wattage_rating
    discharge_amp_rating := discharge_amp_rating
    type := type
    software_version := software_version
    hardware_version := hardware_version
    serial_number := serial_number
    modbus_address := to_uint8 (info_registers 16)
    last_update_time := now }

/-- The method `RenogyChargeController::read_info_registers`.  `txn` is what the single
transaction `_node.readHoldingRegisters(0x00A, num_info_registers)` yields and `now`
the clock reading; the result is the returned `bool` and the object afterwards. -/
def read_info_registers (txn : Transaction) (now : ℤ) (self : RenogyChargeController) :
    Bool × RenogyChargeController :=
  let self := { self with
    node := self.node.issue (Request.readHoldingRegisters 0x00A num_info_registers) }
  let result := to_uint8 txn.result
  if result = ku8MBSuccess then
    let info_registers := copy_registers num_info_registers txn
    (true, { self with renogy_info := decode_info info_registers now self.renogy_info })
  else
    (false, self)

/-- The method `RenogyChargeController::set_load`. -/
def set_load (state : Bool) (self : RenogyChargeController) : RenogyChargeController :=
  if state = true then
    { self with node := self.node.issue (Request.writeSingleRegister 0x010A 1) }
  else
    { self with node := self.node.issue (Request.writeSingleRegister 0x010A 0) }

/-- The Arduino helper `lowWord(w)`: bits 15..0. -/
def lowWord (w : ℕ) : ℕ := to_uint16 (w % 65536)

/-- The Arduino helper `highWord(w)`: bits 31..16. -/
def highWord (w : ℕ) : ℕ := to_uint16 (w / 65536)

/-- The method `RenogyChargeController::update`. -/
def update (self : RenogyChargeController) : RenogyChargeController :=
  let i := to_uint32 (self.i + 1)
  let node := self.node.setTransmitBuffer 0 (lowWord i)
  let node := node.setTransmitBuffer 1 (highWord i)
  { self with i := i, node := node }

/-! ## Sessions -/

/-- One call on the object, with what the environment supplies to it. -/
inductive Call where
  | read_data_registers (txn : Transaction) (now : ℤ)
  | read_info_registers (txn : Transaction) (now : ℤ)
  | set_load (state : Bool)
  | update

/-- The object after one call. -/
def step (self : RenogyChargeController) : Call → RenogyChargeController
  | Call.read_data_registers txn now => (read_data_registers txn now self).2
  | Call.read_info_registers txn now => (read_info_registers txn now self).2
  | Call.set_load state => set_load state self
  | Call.update => update self

/-- The object after a finite sequence of calls, first call first. -/
def run (self : RenogyChargeController) (calls : List Call) : RenogyChargeController :=
  calls.foldl step self

/-- The telemetry snapshot with every member zero, as at the start of a session. -/
def zeroed_data : Controller_data :=
  { battery_soc := 0, battery_voltage := 0, battery_charging_amps := 0,
    battery_temperature := 0, controller_temperature := 0, load_voltage := 0,
    load_amps := 0, load_watts := 0, solar_panel_voltage := 0, solar_panel_amps := 0,
    solar_panel_watts := 0, min_battery_voltage_today := 0,
    max_battery_voltage_today := 0, max_charging_amps_today := 0,
    max_discharging_amps_today := 0, max_charge_watts_today := 0,
    max_discharge_watts_today := 0, charge_amphours_today := 0,
    discharge_amphours_today := 0, charge_watthours_today := 0,
    discharge_watthours_today := 0, controller_uptime_days := 0,
    total_battery_overcharges := 0, total_battery_fullcharges := 0,
    battery_temperatureF := 0, controller_temperatureF := 0, battery_charging_watts := 0,
    last_update_time := 0, controller_connected := false }

/-- The identity snapshot with every member zero (the three arrays all zero bytes). -/
def zeroed_info : Controller_info :=
  { voltage_rating := 0, amp_rating := 0, discharge_amp_rating := 0, type := 0,
    controller_name := 0, software_version := List.replicate buffer_size NUL,
    hardware_version := List.replicate buffer_size NUL,
    serial_number := List.replicate buffer_size NUL, modbus_address := 0,
    wattage_rating := 0, last_update_time := 0 }

/-- The object at the start of a session. -/
def zeroed : RenogyChargeController :=
  { renogy_data := zeroed_data, renogy_info := zeroed_info,
    node := { requests := [], transmit_buffer := List.replicate ku8MaxBufferSize 0 },
    i := 0 }

/-- A transaction that succeeds and returns the given words, `0` beyond them. -/
def Transaction.ok (words : List ℕ) : Transaction :=
  { result := ku8MBSuccess, getResponseBuffer := fun j => words.getD j 0 }

/-- A transaction that fails with the given nonzero status byte. -/
def Transaction.failed (status : ℕ) : Transaction :=
  { result := status, getResponseBuffer := fun _ => 0 }

/-- A successful data block: battery 24.0 V and 5.0 A, temperature word `3 * 256 + 77`,
and a 300 W panel reading in register 9. -/
def sample_data_block : List ℕ :=
  [87, 240, 50, 845, 121, 150, 18, 300, 1000, 300, 0, 118, 141, 520, 15, 310, 20, 12,
   3, 400, 30, 57, 2, 44, 0, 0, 0, 0, 0, 0, 0, 0, 0, 0, 0]

/-- A successful info block: 12 V / 30 A rating word, 20 A discharge rating of type 0,
versions 12.34 and 5.6, serial 17/4242, address 255. -/
def sample_info_block : List ℕ :=
  [12 * 256 + 30, 20 * 256 + 0, 0, 0, 0, 0, 0, 0, 0, 0, 12, 34, 5, 6, 17, 4242, 255]

/-- The object after one successful read of `sample_data_block` at time 1000 in a
fresh session. -/
def sample_session : RenogyChargeController :=
  (read_data_registers (Transaction.ok sample_data_block) 1000 zeroed).2

/-- The status byte `ModbusMaster::ku8MBResponseTimedOut`. -/
def ku8MBResponseTimedOut : ℕ := 0xE2

/-- The eight members that the failure branch of `read_data_registers` clears. -/
def volatile_cleared (d : Controller_data) : Prop :=
  d.battery_voltage = 0 ∧ d.battery_charging_amps = 0 ∧ d.battery_charging_watts = 0
    ∧ d.battery_soc = 0 ∧ d.controller_temperature = 0 ∧ d.battery_temperature = 0
    ∧ d.solar_panel_amps = 0 ∧ d.solar_panel_watts = 0

/-- A short session: a successful data read, an info read, the load switched on, a
counter update, then a data read that times out. -/
def sample_calls : List Call :=
  [Call.read_data_registers (Transaction.ok sample_data_block) 1000,
   Call.read_info_registers (Transaction.ok sample_info_block) 1100,
   Call.set_load true,
   Call.update,
   Call.read_data_registers (Transaction.failed ku8MBResponseTimedOut) 2000]

/-- A successful data block with a battery reading of 24.1 V and 5.3 A; the other
registers are those of `sample_data_block`. -/
def fractional_data_block : List ℕ := (sample_data_block.set 1 241).set 2 53

/-- The info block `sample_info_block` with registers 10 and 11 replaced by `a` and
`b`. -/
def info_block_with_version (a b : ℕ) : List ℕ := (sample_info_block.set 10 a).set 11 b

/-- The info block `sample_info_block` with register 16 replaced by `0x01FF`. -/
def wide_address_info_block : List ℕ := sample_info_block.set 16 0x01FF

/-- A fresh session whose identity snapshot already holds the product-model code 7
and three earlier strings. -/
def named_session : RenogyChargeController :=
  { zeroed with renogy_info :=
      { zeroed_info with
        controller_name := 7
        software_version := char_array ("98765432")
        hardware_version := char_array ("111")
        serial_number := char_array ("2024000001") } }

/-- The data block `sample_data_block` with the undecoded registers 10 and 30 replaced
by 1 and 999. -/
def sample_data_block_reserved : List ℕ := (sample_data_block.set 10 1).set 30 999

theorem copy_registers_getD (n : ℕ) (txn : Transaction) (j : ℕ) (hj : j < n) :
    (copy_registers n txn).getD j 0 = to_uint16 (txn.getResponseBuffer j) := by
  simp [copy_registers, List.getD_eq_getElem?_getD, List.getElem?_map, List.getElem?_range hj]

theorem to_uint16_of_lt {v : ℕ} (h : v < 65536) : to_uint16 v = v := Nat.mod_eq_of_lt h

theorem to_uint8_of_lt {v : ℕ} (h : v < 256) : to_uint8 v = v := Nat.mod_eq_of_lt h

theorem read_data_registers_success (txn : Transaction) (now : ℤ)
    (self : RenogyChargeController) (hok : to_uint8 txn.result = ku8MBSuccess) :
    read_data_registers txn now self =
      (true, { self with
        node := self.node.issue (Request.readHoldingRegisters 0x100 num_data_registers)
        renogy_data :=
          decode_data (copy_registers num_data_registers txn) now self.renogy_data }) := by
  simp [read_data_registers, hok]

theorem read_data_registers_failure (txn : Transaction) (now : ℤ)
    (self : RenogyChargeController) (hfail : to_uint8 txn.result ≠ ku8MBSuccess) :
    read_data_registers txn now self =
      (false, { self with
        node := self.node.issue (Request.readHoldingRegisters 0x100 num_data_registers)
        renogy_data := reset_data self.renogy_data }) := by
  simp [read_data_registers, hfail]

theorem read_info_registers_success (txn : Transaction) (now : ℤ)
    (self : RenogyChargeController) (hok : to_uint8 txn.result = ku8MBSuccess) :
    read_info_registers txn now self =
      (true, { self with
        node := self.node.issue (Request.readHoldingRegisters 0x00A num_info_registers)
        renogy_info :=
          decode_info (copy_registers num_info_registers txn) now self.renogy_info }) := by
  simp [read_info_registers, hok]

theorem read_info_registers_failure (txn : Transaction) (now : ℤ)
    (self : RenogyChargeController) (hfail : to_uint8 txn.result ≠ ku8MBSuccess) :
    read_info_registers txn now self =
      (false, { self with
        node := self.node.issue (Request.readHoldingRegisters 0x00A num_info_registers) }) := by
  simp [read_info_registers, hfail]

theorem Transaction.ok_word16 (words : List ℕ) (h : ∀ w ∈ words, w < 65536) (j : ℕ) :
    (Transaction.ok words).getResponseBuffer j < 65536 := by
  show words.getD j 0 < 65536
  rw [List.getD_eq_getElem?_getD]
  cases hj : words[j]? with
  | none => simp
  | some w => exact h w (List.getElem?_mem hj)

theorem data_register (txn : Transaction) (h16 : ∀ j, txn.getResponseBuffer j < 65536)
    (j : ℕ) (hj : j < num_data_registers) :
    (copy_registers num_data_registers txn).getD j 0 = txn.getResponseBuffer j := by
  rw [copy_registers_getD _ _ _ hj, to_uint16_of_lt (h16 j)]

theorem info_register (txn : Transaction) (h16 : ∀ j, txn.getResponseBuffer j < 65536)
    (j : ℕ) (hj : j < num_info_registers) :
    (copy_registers num_info_registers txn).getD j 0 = txn.getResponseBuffer j := by
  rw [copy_registers_getD _ _ _ hj, to_uint16_of_lt (h16 j)]

theorem itoa_uint16 (v : ℕ) : itoa (uint16_to_int v) = (Nat.repr v).data := by
  have h : ¬ ((v : ℤ) < 0) := by omega
  simp only [itoa, uint16_to_int, if_neg h, Int.natAbs_ofNat]
  rfl

theorem digitChar_ne_NUL : ∀ k, k < 10 → Nat.digitChar k ≠ NUL := by
  decide

theorem toDigitsCore_ne_NUL (fuel : ℕ) : ∀ (n : ℕ) (ds : List Char),
    (∀ c ∈ ds, c ≠ NUL) → ∀ c ∈ Nat.toDigitsCore 10 fuel n ds, c ≠ NUL := by
  induction fuel with
  | zero => intro n ds h; simpa [Nat.toDigitsCore] using h
  | succ fuel ih =>
    intro n ds h
    have hds : ∀ c ∈ Nat.digitChar (n % 10) :: ds, c ≠ NUL := by
      intro c hc
      rcases List.mem_cons.mp hc with rfl | hc
      · exact digitChar_ne_NUL _ (Nat.mod_lt n (by norm_num))
      · exact h c hc
    rw [Nat.toDigitsCore]
    split
    · exact hds
    · exact ih _ _ hds

theorem itoa_uint16_ne_NUL (v : ℕ) : ∀ c ∈ itoa (uint16_to_int v), c ≠ NUL := by
  have h : ¬ ((v : ℤ) < 0) := by omega
  simp only [itoa, uint16_to_int, if_neg h, Int.natAbs_ofNat]
  exact toDigitsCore_ne_NUL _ _ _ (by simp)

theorem c_str_append_NUL (src rest : List Char) (h : ∀ c ∈ src, c ≠ NUL) :
    c_str (src ++ NUL :: rest) = src := by
  unfold c_str
  induction src with
  | nil => simp
  | cons c cs ih =>
    have hc : c ≠ NUL := h c (List.mem_cons_self _ _)
    have hcs : ∀ x ∈ cs, x ≠ NUL := fun x hx => h x (List.mem_cons_of_mem _ hx)
    simp only [List.cons_append]
    rw [List.takeWhile_cons]
    simp only [hc, ne_eq, not_false_eq_true, decide_True, if_true]
    exact congrArg (c :: ·) (ih hcs)

theorem c_str_strcpy (dest src : List Char) (h : ∀ c ∈ src, c ≠ NUL) :
    c_str (strcpy dest src) = src :=
  c_str_append_NUL src _ h

theorem strcpy_tail (dest src : List Char) :
    (strcpy dest src).drop (src.length + 1) = dest.drop (src.length + 1) := by
  unfold strcpy
  rw [show src ++ NUL :: List.drop (src.length + 1) dest
      = (src ++ [NUL]) ++ List.drop (src.length + 1) dest by simp]
  rw [List.drop_append_of_le_length (by simp)]
  simp

theorem strcpy_length (dest src : List Char) (h : src.length + 1 ≤ dest.length) :
    (strcpy dest src).length = dest.length := by
  simp only [strcpy, List.length_append, List.length_cons, List.length_drop]
  omega

theorem strcat_itoa_ne_NUL (a b : ℕ) :
    ∀ c ∈ strcat (itoa (uint16_to_int a)) (itoa (uint16_to_int b)), c ≠ NUL := by
  intro c hc
  rcases List.mem_append.mp hc with h | h
  · exact itoa_uint16_ne_NUL a c h
  · exact itoa_uint16_ne_NUL b c h

theorem c_str_version (dest : List Char) (a b : ℕ) :
    c_str (strcpy dest (strcat (itoa (uint16_to_int a)) (itoa (uint16_to_int b))))
      = strcat (itoa (uint16_to_int a)) (itoa (uint16_to_int b)) :=
  c_str_strcpy dest _ (strcat_itoa_ne_NUL a b)

theorem step_disconnected_cleared (self : RenogyChargeController) (c : Call)
    (h : self.renogy_data.controller_connected = false → volatile_cleared self.renogy_data) :
    (step self c).renogy_data.controller_connected = false →
      volatile_cleared (step self c).renogy_data := by
  cases c with
  | read_data_registers txn now =>
    by_cases hok : to_uint8 txn.result = ku8MBSuccess
    · simp [step, read_data_registers_success txn now self hok, decode_data]
    · intro _
      simp [step, read_data_registers_failure txn now self hok, reset_data, volatile_cleared]
  | read_info_registers txn now =>
    by_cases hok : to_uint8 txn.result = ku8MBSuccess
    · simpa [step, read_info_registers_success txn now self hok] using h
    · simpa [step, read_info_registers_failure txn now self hok] using h
  | set_load state =>
    cases state <;> simpa [step, set_load] using h
  | update => simpa [step, update] using h

theorem run_disconnected_cleared (calls : List Call) (self : RenogyChargeController)
    (h : self.renogy_data.controller_connected = false → volatile_cleared self.renogy_data) :
    (run self calls).renogy_data.controller_connected = false →
      volatile_cleared (run self calls).renogy_data := by
  induction calls generalizing self with
  | nil => exact h
  | cons c rest ih => exact ih (step self c) (step_disconnected_cleared self c h)

/-! ## Rounding error -/

theorem roundHalfEven_error (y : ℚ) : |(roundHalfEven y : ℚ) - y| ≤ 1 / 2 := by
  have h1 : ((⌊y⌋ : ℤ) : ℚ) ≤ y := Int.floor_le y
  have h2 : y < ((⌊y⌋ : ℤ) : ℚ) + 1 := Int.lt_floor_add_one y
  unfold roundHalfEven
  simp only
  rw [abs_le]
  split_ifs with ha hb hc <;> push_cast <;> constructor <;> linarith

theorem bitLength_spec (fuel : ℕ) : ∀ n : ℕ, n ≤ fuel → 0 < n →
    2 ^ bitLength fuel n ≤ 2 * n ∧ n < 2 ^ bitLength fuel n := by
  induction fuel with
  | zero => intro n h1 h2; omega
  | succ fuel ih =>
    intro n hle hpos
    have hn : n ≠ 0 := by omega
    simp only [bitLength, if_neg hn]
    by_cases hhalf : n / 2 = 0
    · have h1 : n = 1 := by omega
      subst h1
      have : bitLength fuel (1 / 2) = 0 := by
        cases fuel <;> simp [bitLength]
      rw [this]
      norm_num
    · have hlt : n / 2 ≤ fuel := by omega
      obtain ⟨ih1, ih2⟩ := ih (n / 2) hlt (by omega)
      rw [pow_succ]
      constructor <;> omega

theorem ulpExp_lower (p : ℕ) (hp : 1 ≤ p) (x : ℚ) (hx : x ≠ 0) :
    (2 : ℚ) ^ (p - 1) * (2 : ℚ) ^ ulpExp p x ≤ |x| := by
  unfold ulpExp
  simp only
  split_ifs with hlt
  · have hnum : 0 < x.num.natAbs := Int.natAbs_pos.mpr (Rat.num_ne_zero.mpr hx)
    obtain ⟨ha, -⟩ := bitLength_spec x.num.natAbs x.num.natAbs le_rfl hnum
    obtain ⟨-, hb⟩ := bitLength_spec x.den x.den le_rfl x.den_pos
    set a := bitLength x.num.natAbs x.num.natAbs
    set b := bitLength x.den x.den
    have hxabs : |x| = (x.num.natAbs : ℚ) / (x.den : ℚ) := by
      rw [Nat.cast_natAbs]
      conv_lhs => rw [← Rat.num_div_den x]
      rw [abs_div, Int.cast_abs, Nat.abs_cast]
    have hden : (0 : ℚ) < x.den := by exact_mod_cast x.den_pos
    have hexp : (2 : ℚ) ^ (p - 1) * (2 : ℚ) ^ ((a : ℤ) - (b : ℤ) + 1 - (p : ℤ) - 1)
        = (2 : ℚ) ^ a / ((2 : ℚ) ^ b * 2) := by
      rw [← zpow_natCast, ← zpow_add₀ (two_ne_zero), Nat.cast_sub hp]
      have : ((p : ℤ) - (1 : ℕ) + ((a : ℤ) - (b : ℤ) + 1 - (p : ℤ) - 1)) = (a : ℤ) - ((b : ℤ) + 1) := by
        push_cast; ring
      rw [this, zpow_sub₀ two_ne_zero, zpow_add₀ two_ne_zero, zpow_natCast, zpow_natCast, zpow_one]
    rw [hexp, hxabs, div_le_div_iff₀ (by positivity) hden]
    have ha' : ((2 : ℚ) ^ a) ≤ 2 * (x.num.natAbs : ℚ) := by exact_mod_cast ha
    have hb' : (x.den : ℚ) ≤ (2 : ℚ) ^ b := by exact_mod_cast hb.le
    calc (2 : ℚ) ^ a * (x.den : ℚ) ≤ (2 * (x.num.natAbs : ℚ)) * (2 : ℚ) ^ b := by
          apply mul_le_mul ha' hb' hden.le (by positivity)
      _ = (x.num.natAbs : ℚ) * ((2 : ℚ) ^ b * 2) := by ring
  · exact not_lt.mp hlt

theorem roundBin_error (p : ℕ) (hp : 1 ≤ p) (x : ℚ) :
    |roundBin p x - x| ≤ |x| / 2 ^ p := by
  unfold roundBin
  split_ifs with hx
  · simp [hx]
  · have hlow := ulpExp_lower p hp x hx
    set e := ulpExp p x
    have he : (0 : ℚ) < (2 : ℚ) ^ e := zpow_pos (by norm_num) e
    have hy := roundHalfEven_error (x / (2 : ℚ) ^ e)
    set m : ℚ := (roundHalfEven (x / (2 : ℚ) ^ e) : ℚ)
    have h1 : m * (2 : ℚ) ^ e - x = (m - x / (2 : ℚ) ^ e) * (2 : ℚ) ^ e := by
      field_simp
    rw [h1, abs_mul, abs_of_pos he]
    have hpp : (2 : ℚ) ^ p = 2 * (2 : ℚ) ^ (p - 1) := by
      conv_lhs => rw [← Nat.sub_add_cancel hp]
      rw [pow_succ]; ring
    rw [le_div_iff₀ (by positivity), hpp]
    have h2p : (0 : ℚ) < (2 : ℚ) ^ (p - 1) := by positivity
    calc |m - x / (2 : ℚ) ^ e| * (2 : ℚ) ^ e * (2 * (2 : ℚ) ^ (p - 1))
        ≤ 1 / 2 * (2 : ℚ) ^ e * (2 * (2 : ℚ) ^ (p - 1)) := by
          apply mul_le_mul_of_nonneg_right _ (by positivity)
          exact mul_le_mul_of_nonneg_right hy he.le
      _ = (2 : ℚ) ^ (p - 1) * (2 : ℚ) ^ e := by ring
      _ ≤ |x| := hlow



theorem roundBin_bounds (p : ℕ) (hp : 1 ≤ p) (x : ℚ) (hx : 0 ≤ x) :
    x * (1 - 1 / 2 ^ p) ≤ roundBin p x ∧ roundBin p x ≤ x * (1 + 1 / 2 ^ p) := by
  have h := roundBin_error p hp x
  rw [abs_of_nonneg hx, abs_le] at h
  have e1 : x * (1 - 1 / 2 ^ p) = x - x / 2 ^ p := by ring
  have e2 : x * (1 + 1 / 2 ^ p) = x + x / 2 ^ p := by ring
  rw [e1, e2]
  constructor
  · linarith [h.1]
  · linarith [h.2]

theorem toFloat_bounds (x : ℚ) (hx : 0 ≤ x) :
    x * (1 - 1 / 2 ^ 24) ≤ toFloat x ∧ toFloat x ≤ x * (1 + 1 / 2 ^ 24) :=
  roundBin_bounds 24 (by norm_num) x hx

theorem toDouble_bounds (x : ℚ) (hx : 0 ≤ x) :
    x * (1 - 1 / 2 ^ 53) ≤ toDouble x ∧ toDouble x ≤ x * (1 + 1 / 2 ^ 53) :=
  roundBin_bounds 53 (by norm_num) x hx

theorem lit_0_1_eq : lit_0_1 = 3602879701896397 / 36028797018963968 := by decide!

theorem lit_0_01_eq : lit_0_01 = 5764607523034235 / 576460752303423488 := by decide!

theorem scaled_bounds (reg : ℕ) (c k : ℚ) (hc : 0 ≤ c)
    (hlo : k * (1 - 1 / 2 ^ 23) ≤ c * ((1 - 1 / 2 ^ 53) * (1 - 1 / 2 ^ 24)))
    (hhi : c * ((1 + 1 / 2 ^ 53) * (1 + 1 / 2 ^ 24)) ≤ k * (1 + 1 / 2 ^ 23)) :
    (reg : ℚ) * k * (1 - 1 / 2 ^ 23) ≤ toFloat (toDouble ((reg : ℚ) * c))
    ∧ toFloat (toDouble ((reg : ℚ) * c)) ≤ (reg : ℚ) * k * (1 + 1 / 2 ^ 23) := by
  have hreg : (0 : ℚ) ≤ reg := Nat.cast_nonneg reg
  have hx : (0 : ℚ) ≤ (reg : ℚ) * c := mul_nonneg hreg hc
  obtain ⟨d1, d2⟩ := toDouble_bounds _ hx
  have hd : 0 ≤ toDouble ((reg : ℚ) * c) :=
    le_trans (mul_nonneg hx (by norm_num)) d1
  obtain ⟨f1, f2⟩ := toFloat_bounds _ hd
  constructor
  · calc (reg : ℚ) * k * (1 - 1 / 2 ^ 23) = reg * (k * (1 - 1 / 2 ^ 23)) := by ring
      _ ≤ reg * (c * ((1 - 1 / 2 ^ 53) * (1 - 1 / 2 ^ 24))) :=
          mul_le_mul_of_nonneg_left hlo hreg
      _ = (reg * c * (1 - 1 / 2 ^ 53)) * (1 - 1 / 2 ^ 24) := by ring
      _ ≤ toDouble (reg * c) * (1 - 1 / 2 ^ 24) :=
          mul_le_mul_of_nonneg_right d1 (by norm_num)
      _ ≤ toFloat (toDouble (reg * c)) := f1
  · calc toFloat (toDouble (reg * c)) ≤ toDouble (reg * c) * (1 + 1 / 2 ^ 24) := f2
      _ ≤ (reg * c * (1 + 1 / 2 ^ 53)) * (1 + 1 / 2 ^ 24) :=
          mul_le_mul_of_nonneg_right d2 (by norm_num)
      _ = reg * (c * ((1 + 1 / 2 ^ 53) * (1 + 1 / 2 ^ 24))) := by ring
      _ ≤ reg * (k * (1 + 1 / 2 ^ 23)) := mul_le_mul_of_nonneg_left hhi hreg
      _ = (reg : ℚ) * k * (1 + 1 / 2 ^ 23) := by ring

theorem scale_tenth_bounds (reg : ℕ) :
    (reg : ℚ) * (1 / 10) * (1 - 1 / 2 ^ 23) ≤ scale_tenth reg
    ∧ scale_tenth reg ≤ (reg : ℚ) * (1 / 10) * (1 + 1 / 2 ^ 23) := by
  unfold scale_tenth
  apply scaled_bounds <;> rw [lit_0_1_eq] <;> norm_num

theorem scale_hundredth_bounds (reg : ℕ) :
    (reg : ℚ) * (1 / 100) * (1 - 1 / 2 ^ 23) ≤ scale_hundredth reg
    ∧ scale_hundredth reg ≤ (reg : ℚ) * (1 / 100) * (1 + 1 / 2 ^ 23) := by
  unfold scale_hundredth
  apply scaled_bounds <;> rw [lit_0_01_eq] <;> norm_num

theorem tenth_product_bounds (r1 r2 : ℕ) :
    (r1 : ℚ) * r2 / 100 * (1 - 1 / 2 ^ 21) ≤ toFloat (scale_tenth r1 * scale_tenth r2)
    ∧ toFloat (scale_tenth r1 * scale_tenth r2) ≤ (r1 : ℚ) * r2 / 100 * (1 + 1 / 2 ^ 21) := by
  obtain ⟨v1, v2⟩ := scale_tenth_bounds r1
  obtain ⟨a1, a2⟩ := scale_tenth_bounds r2
  have h1 : (0 : ℚ) ≤ r1 := Nat.cast_nonneg r1
  have h2 : (0 : ℚ) ≤ r2 := Nat.cast_nonneg r2
  have hv : 0 ≤ scale_tenth r1 := le_trans (by positivity) v1
  have ha : 0 ≤ scale_tenth r2 := le_trans (by positivity) a1
  obtain ⟨f1, f2⟩ := toFloat_bounds _ (mul_nonneg hv ha)
  have hVA : (0 : ℚ) ≤ (r1 : ℚ) * r2 / 100 := by positivity
  constructor
  · calc (r1 : ℚ) * r2 / 100 * (1 - 1 / 2 ^ 21)
        ≤ (r1 : ℚ) * r2 / 100 * ((1 - 1 / 2 ^ 23) * (1 - 1 / 2 ^ 23) * (1 - 1 / 2 ^ 24)) :=
          mul_le_mul_of_nonneg_left (by norm_num) hVA
      _ = ((r1 : ℚ) * (1 / 10) * (1 - 1 / 2 ^ 23)) * ((r2 : ℚ) * (1 / 10) * (1 - 1 / 2 ^ 23))
            * (1 - 1 / 2 ^ 24) := by ring
      _ ≤ (scale_tenth r1 * scale_tenth r2) * (1 - 1 / 2 ^ 24) := by
          apply mul_le_mul_of_nonneg_right _ (by norm_num)
          exact mul_le_mul v1 a1 (by positivity) hv
      _ ≤ _ := f1
  · calc toFloat (scale_tenth r1 * scale_tenth r2)
        ≤ (scale_tenth r1 * scale_tenth r2) * (1 + 1 / 2 ^ 24) := f2
      _ ≤ (((r1 : ℚ) * (1 / 10) * (1 + 1 / 2 ^ 23)) * ((r2 : ℚ) * (1 / 10) * (1 + 1 / 2 ^ 23)))
            * (1 + 1 / 2 ^ 24) := by
          apply mul_le_mul_of_nonneg_right _ (by norm_num)
          exact mul_le_mul v2 a2 ha (by positivity)
      _ = (r1 : ℚ) * r2 / 100 * ((1 + 1 / 2 ^ 23) * (1 + 1 / 2 ^ 23) * (1 + 1 / 2 ^ 24)) := by
          ring
      _ ≤ (r1 : ℚ) * r2 / 100 * (1 + 1 / 2 ^ 21) :=
          mul_le_mul_of_nonneg_left (by norm_num) hVA

theorem scale_tenth_error (reg : ℕ) :
    |scale_tenth reg - (reg : ℚ) / 10| ≤ (reg : ℚ) / 10 / 2 ^ 23 := by
  obtain ⟨h1, h2⟩ := scale_tenth_bounds reg
  rw [abs_le]
  constructor <;> linarith

theorem scale_hundredth_error (reg : ℕ) :
    |scale_hundredth reg - (reg : ℚ) / 100| ≤ (reg : ℚ) / 100 / 2 ^ 23 := by
  obtain ⟨h1, h2⟩ := scale_hundredth_bounds reg
  rw [abs_le]
  constructor <;> linarith

theorem toFloat_error (x : ℚ) (hx : 0 ≤ x) : |toFloat x - x| ≤ x / 2 ^ 24 := by
  have h := roundBin_error 24 (by norm_num) x
  rwa [abs_of_nonneg hx] at h

theorem fahrenheit_nearest :
    ∀ t : Fin 256, fahrenheit t = toFloat ((t : ℚ) * (9 / 5) + 32) := by
  decide!

theorem fahrenheit_uint8 (v : ℕ) :
    fahrenheit (to_uint8 v) = toFloat ((to_uint8 v : ℚ) * (9 / 5) + 32) :=
  fahrenheit_nearest ⟨to_uint8 v, Nat.mod_lt v (by norm_num)⟩

theorem read_data_registers_scaled (txn : Transaction) (now : ℤ)
    (self : RenogyChargeController) (hok : to_uint8 txn.result = ku8MBSuccess)
    (h16 : ∀ j, txn.getResponseBuffer j < 65536) :
    (read_data_registers txn now self).2.renogy_data.battery_voltage
        = scale_tenth (txn.getResponseBuffer 1)
    ∧ (read_data_registers txn now self).2.renogy_data.battery_charging_amps
        = scale_tenth (txn.getResponseBuffer 2)
    ∧ (read_data_registers txn now self).2.renogy_data.load_voltage
        = scale_tenth (txn.getResponseBuffer 4)
    ∧ (read_data_registers txn now self).2.renogy_data.load_amps
        = scale_hundredth (txn.getResponseBuffer 5)
    ∧ (read_data_registers txn now self).2.renogy_data.solar_panel_voltage
        = scale_tenth (txn.getResponseBuffer 7)
    ∧ (read_data_registers txn now self).2.renogy_data.solar_panel_amps
        = scale_hundredth (txn.getResponseBuffer 8)
    ∧ (read_data_registers txn now self).2.renogy_data.min_battery_voltage_today
        = scale_tenth (txn.getResponseBuffer 11)
    ∧ (read_data_registers txn now self).2.renogy_data.max_battery_voltage_today
        = scale_tenth (txn.getResponseBuffer 12)
    ∧ (read_data_registers txn now self).2.renogy_data.max_charging_amps_today
        = scale_hundredth (txn.getResponseBuffer 13)
    ∧ (read_data_registers txn now self).2.renogy_data.max_discharging_amps_today
        = scale_tenth (txn.getResponseBuffer 14) := by
  rw [read_data_registers_success txn now self hok]
  refine ⟨?_, ?_, ?_, ?_, ?_, ?_, ?_, ?_, ?_, ?_⟩ <;> simp only [decode_data] <;>
    rw [data_register txn h16 _ (by decide)]

theorem toDigits_length_pos (n : ℕ) : 1 ≤ (Nat.toDigits 10 n).length := by
  unfold Nat.toDigits
  rw [Nat.toDigitsCore]
  split
  · simp
  · rw [Nat.toDigitsCore_lens_eq]
    omega

theorem itoa_uint16_length (v : ℕ) (hv : v < 65536) :
    1 ≤ (itoa (uint16_to_int v)).length ∧ (itoa (uint16_to_int v)).length ≤ 5 := by
  have h : ¬ ((v : ℤ) < 0) := by omega
  simp only [itoa, uint16_to_int, if_neg h, Int.natAbs_ofNat]
  refine ⟨toDigits_length_pos v, ?_⟩
  exact Nat.toDigitsCore_length 10 (by norm_num) (v + 1) v 5 (by omega) (by norm_num)

theorem strcat_itoa_length (a b : ℕ) (ha : a < 65536) (hb : b < 65536) :
    2 ≤ (strcat (itoa (uint16_to_int a)) (itoa (uint16_to_int b))).length
    ∧ (strcat (itoa (uint16_to_int a)) (itoa (uint16_to_int b))).length ≤ 10 := by
  obtain ⟨a1, a2⟩ := itoa_uint16_length a ha
  obtain ⟨b1, b2⟩ := itoa_uint16_length b hb
  simp only [strcat, List.length_append]
  omega

/-! ## Claims -/

/-- C1: when the data-block transaction fails, `read_data_registers` sets
`controller_connected` to false, sets the eight fields `battery_voltage`,
`battery_charging_amps`, `battery_charging_watts`, `battery_soc`,
`controller_temperature`, `battery_temperature`, `solar_panel_amps` and
`solar_panel_watts` to zero, and leaves each of the other twenty fields of the
telemetry snapshot equal to its value before the call. -/
theorem read_data_registers_failure_frame (txn : Transaction) (now : ℤ)
    (self : RenogyChargeController) (hfail : to_uint8 txn.result ≠ ku8MBSuccess) :
    ((read_data_registers txn now self).2.renogy_data.controller_connected = false
      ∧ (read_data_registers txn now self).2.renogy_data.battery_voltage = 0
      ∧ (read_data_registers txn now self).2.renogy_data.battery_charging_amps = 0
      ∧ (read_data_registers txn now self).2.renogy_data.battery_charging_watts = 0
      ∧ (read_data_registers txn now self).2.renogy_data.battery_soc = 0
      ∧ (read_data_registers txn now self).2.renogy_data.controller_temperature = 0
      ∧ (read_data_registers txn now self).2.renogy_data.battery_temperature = 0
      ∧ (read_data_registers txn now self).2.renogy_data.solar_panel_amps = 0
      ∧ (read_data_registers txn now self).2.renogy_data.solar_panel_watts = 0)
    ∧ ((read_data_registers txn now self).2.renogy_data.load_voltage
          = self.renogy_data.load_voltage
      ∧ (read_data_registers txn now self).2.renogy_data.load_amps
          = self.renogy_data.load_amps
      ∧ (read_data_registers txn now self).2.renogy_data.load_watts
          = self.renogy_data.load_watts
      ∧ (read_data_registers txn now self).2.renogy_data.solar_panel_voltage
          = self.renogy_data.solar_panel_voltage
      ∧ (read_data_registers txn now self).2.renogy_data.min_battery_voltage_today
          = self.renogy_data.min_battery_voltage_today
      ∧ (read_data_registers txn now self).2.renogy_data.max_battery_voltage_today
          = self.renogy_data.max_battery_voltage_today
      ∧ (read_data_registers txn now self).2.renogy_data.max_charging_amps_today
          = self.renogy_data.max_charging_amps_today
      ∧ (read_data_registers txn now self).2.renogy_data.max_discharging_amps_today
          = self.renogy_data.max_discharging_amps_today
      ∧ (read_data_registers txn now self).2.renogy_data.max_charge_watts_today
          = self.renogy_data.max_charge_watts_today
      ∧ (read_data_registers txn now self).2.renogy_data.max_discharge_watts_today
          = self.renogy_data.max_discharge_watts_today
      ∧ (read_data_registers txn now self).2.renogy_data.charge_amphours_today
          = self.renogy_data.charge_amphours_today
      ∧ (read_data_registers txn now self).2.renogy_data.discharge_amphours_today
          = self.renogy_data.discharge_amphours_today
      ∧ (read_data_registers txn now self).2.renogy_data.charge_watthours_today
          = self.renogy_data.charge_watthours_today
      ∧ (read_data_registers txn now self).2.renogy_data.discharge_watthours_today
          = self.renogy_data.discharge_watthours_today
      ∧ (read_data_registers txn now self).2.renogy_data.controller_uptime_days
          = self.renogy_data.controller_uptime_days
      ∧ (read_data_registers txn now self).2.renogy_data.total_battery_overcharges
          = self.renogy_data.total_battery_overcharges
      ∧ (read_data_registers txn now self).2.renogy_data.total_battery_fullcharges
          = self.renogy_data.total_battery_fullcharges
      ∧ (read_data_registers txn now self).2.renogy_data.battery_temperatureF
          = self.renogy_data.battery_temperatureF
      ∧ (read_data_registers txn now self).2.renogy_data.controller_temperatureF
          = self.renogy_data.controller_temperatureF
      ∧ (read_data_registers txn now self).2.renogy_data.last_update_time
          = self.renogy_data.last_update_time) := by
  rw [read_data_registers_failure txn now self hfail]
  simp [reset_data]

/-- Witness for C1: a successful read of `sample_data_block` followed by a read that
times out at time 2000. -/
theorem read_data_registers_failure_frame_witness :
    to_uint8 (Transaction.failed ku8MBResponseTimedOut).result ≠ ku8MBSuccess
    ∧ (read_data_registers (Transaction.failed ku8MBResponseTimedOut) 2000
        sample_session).2.renogy_data.controller_connected = false
    ∧ (read_data_registers (Transaction.failed ku8MBResponseTimedOut) 2000
        sample_session).2.renogy_data.solar_panel_watts = 0
    ∧ (read_data_registers (Transaction.failed ku8MBResponseTimedOut) 2000
        sample_session).2.renogy_data.last_update_time
        = sample_session.renogy_data.last_update_time :=
  have h := read_data_registers_failure_frame (Transaction.failed ku8MBResponseTimedOut)
    2000 sample_session (by decide)
  ⟨by decide, h.1.1, h.1.2.2.2.2.2.2.2.2, h.2.2.2.2.2.2.2.2.2.2.2.2.2.2.2.2.2.2.2.2⟩

/-- C2: for every 16-bit value `r` in data register 3, a successful
`read_data_registers` stores `controller_temperature = r / 256` and
`battery_temperature = r % 256`, and both stored values are at most 255. -/
theorem read_data_registers_temperatures (txn : Transaction) (now : ℤ)
    (self : RenogyChargeController) (hok : to_uint8 txn.result = ku8MBSuccess)
    (h16 : txn.getResponseBuffer 3 < 65536) :
    (read_data_registers txn now self).2.renogy_data.controller_temperature
        = txn.getResponseBuffer 3 / 256
    ∧ (read_data_registers txn now self).2.renogy_data.battery_temperature
        = txn.getResponseBuffer 3 % 256
    ∧ (read_data_registers txn now self).2.renogy_data.controller_temperature ≤ 255
    ∧ (read_data_registers txn now self).2.renogy_data.battery_temperature ≤ 255 := by
  rw [read_data_registers_success txn now self hok]
  have h3 : (copy_registers num_data_registers txn).getD 3 0 = txn.getResponseBuffer 3 := by
    rw [copy_registers_getD _ _ _ (by decide), to_uint16_of_lt h16]
  simp only [decode_data, h3, to_uint16_of_lt h16]
  simp only [to_uint8]
  omega

/-- Witness for C2: the temperature word `845 = 3 * 256 + 77` of `sample_data_block`. -/
theorem read_data_registers_temperatures_witness :
    (read_data_registers (Transaction.ok sample_data_block) 1000
        zeroed).2.renogy_data.controller_temperature = 845 / 256
    ∧ (read_data_registers (Transaction.ok sample_data_block) 1000
        zeroed).2.renogy_data.battery_temperature = 845 % 256 :=
  have h := read_data_registers_temperatures (Transaction.ok sample_data_block) 1000 zeroed
    (by decide) (by decide)
  ⟨h.1, h.2.1⟩

/-- C3, evaluated on the code: for the rating words `12 * 256 + 30` and `20 * 256 + 0`
of `sample_info_block` a successful `read_info_registers` stores `amp_rating = 30` and
`type = 0`, but `voltage_rating = 0` and `discharge_amp_rating = 0` instead of the
quotients 12 and 20. -/
theorem read_info_registers_ratings_sample :
    (read_info_registers (Transaction.ok sample_info_block) 1000 zeroed).1 = true
    ∧ (read_info_registers (Transaction.ok sample_info_block) 1000
        zeroed).2.renogy_info.voltage_rating = 0
    ∧ (12 * 256 + 30) / 256 = 12
    ∧ (read_info_registers (Transaction.ok sample_info_block) 1000
        zeroed).2.renogy_info.amp_rating = 30
    ∧ (read_info_registers (Transaction.ok sample_info_block) 1000
        zeroed).2.renogy_info.discharge_amp_rating = 0
    ∧ (20 * 256 + 0) / 256 = 20
    ∧ (read_info_registers (Transaction.ok sample_info_block) 1000
        zeroed).2.renogy_info.type = 0 := by
  decide

/-- C4: when the info-block transaction fails, `read_info_registers` returns false and
the identity snapshot afterwards is the identity snapshot before the call, in every
field. -/
theorem read_info_registers_failure_unchanged (txn : Transaction) (now : ℤ)
    (self : RenogyChargeController) (hfail : to_uint8 txn.result ≠ ku8MBSuccess) :
    (read_info_registers txn now self).1 = false
    ∧ (read_info_registers txn now self).2.renogy_info = self.renogy_info := by
  rw [read_info_registers_failure txn now self hfail]
  exact ⟨rfl, rfl⟩

/-- Witness for C4: a read of the info block that times out in a fresh session. -/
theorem read_info_registers_failure_unchanged_witness :
    to_uint8 (Transaction.failed ku8MBResponseTimedOut).result ≠ ku8MBSuccess
    ∧ (read_info_registers (Transaction.failed ku8MBResponseTimedOut) 2000 zeroed).1 = false
    ∧ (read_info_registers (Transaction.failed ku8MBResponseTimedOut) 2000
        zeroed).2.renogy_info = zeroed.renogy_info :=
  ⟨by decide,
    read_info_registers_failure_unchanged (Transaction.failed ku8MBResponseTimedOut) 2000
      zeroed (by decide)⟩

/-- C5, evaluated on the code: for `sample_data_block`, whose registers 9, 15 and 19
hold 300, 310 and 400, a successful `read_data_registers` stores
`solar_panel_watts = 44`, `max_charge_watts_today = 54` and
`charge_watthours_today = 144`, the register values reduced modulo 256; registers
below 256, such as register 0, are stored unchanged. -/
theorem read_data_registers_pass_through_sample :
    (read_data_registers (Transaction.ok sample_data_block) 1000 zeroed).1 = true
    ∧ (Transaction.ok sample_data_block).getResponseBuffer 9 = 300
    ∧ (read_data_registers (Transaction.ok sample_data_block) 1000
        zeroed).2.renogy_data.solar_panel_watts = 44
    ∧ (Transaction.ok sample_data_block).getResponseBuffer 15 = 310
    ∧ (read_data_registers (Transaction.ok sample_data_block) 1000
        zeroed).2.renogy_data.max_charge_watts_today = 54
    ∧ (Transaction.ok sample_data_block).getResponseBuffer 19 = 400
    ∧ (read_data_registers (Transaction.ok sample_data_block) 1000
        zeroed).2.renogy_data.charge_watthours_today = 144
    ∧ (Transaction.ok sample_data_block).getResponseBuffer 0 = 87
    ∧ (read_data_registers (Transaction.ok sample_data_block) 1000
        zeroed).2.renogy_data.battery_soc = 87 := by
  decide

/-- C6: after a successful `read_info_registers` on 16-bit registers, the string held
in `software_version` is the decimal digit string of register 10 immediately followed
by that of register 11, the one in `hardware_version` the same for registers 12 and
13, and the one in `serial_number` the same for registers 14 and 15. -/
theorem read_info_registers_versions (txn : Transaction) (now : ℤ)
    (self : RenogyChargeController) (hok : to_uint8 txn.result = ku8MBSuccess)
    (h16 : ∀ j, txn.getResponseBuffer j < 65536) :
    String.mk (c_str (read_info_registers txn now self).2.renogy_info.software_version)
        = Nat.repr (txn.getResponseBuffer 10) ++ Nat.repr (txn.getResponseBuffer 11)
    ∧ String.mk (c_str (read_info_registers txn now self).2.renogy_info.hardware_version)
        = Nat.repr (txn.getResponseBuffer 12) ++ Nat.repr (txn.getResponseBuffer 13)
    ∧ String.mk (c_str (read_info_registers txn now self).2.renogy_info.serial_number)
        = Nat.repr (txn.getResponseBuffer 14) ++ Nat.repr (txn.getResponseBuffer 15) := by
  rw [read_info_registers_success txn now self hok]
  simp only [decode_info, c_str_version]
  simp only [strcat]
  rw [info_register txn h16 10 (by decide), info_register txn h16 11 (by decide),
    info_register txn h16 12 (by decide), info_register txn h16 13 (by decide),
    info_register txn h16 14 (by decide), info_register txn h16 15 (by decide)]
  simp only [itoa_uint16]
  refine ⟨?_, ?_, ?_⟩ <;> apply String.ext <;> simp

/-- Witness for C6: registers 10 and 11 of `sample_info_block` hold 12 and 34, and the
software version read is `"1234"`. -/
theorem read_info_registers_versions_witness :
    (Transaction.ok sample_info_block).getResponseBuffer 10 = 12
    ∧ (Transaction.ok sample_info_block).getResponseBuffer 11 = 34
    ∧ String.mk (c_str (read_info_registers (Transaction.ok sample_info_block) 1000
        zeroed).2.renogy_info.software_version) = "1234" :=
  ⟨by decide, by decide,
    (read_info_registers_versions (Transaction.ok sample_info_block) 1000 zeroed (by decide)
      (Transaction.ok_word16 sample_info_block (by decide))).1.trans (by decide)⟩

/-- C7: `read_data_registers` returns true exactly when the data-block transaction
reports success; when it returns true the snapshot has `controller_connected = true`
and `last_update_time` equal to the current time, and when it returns false the
snapshot has `controller_connected = false`. -/
theorem read_data_registers_reports (txn : Transaction) (now : ℤ)
    (self : RenogyChargeController) :
    ((read_data_registers txn now self).1 = true ↔ to_uint8 txn.result = ku8MBSuccess)
    ∧ ((read_data_registers txn now self).1 = true →
        (read_data_registers txn now self).2.renogy_data.controller_connected = true
        ∧ (read_data_registers txn now self).2.renogy_data.last_update_time = now)
    ∧ ((read_data_registers txn now self).1 = false →
        (read_data_registers txn now self).2.renogy_data.controller_connected = false) := by
  by_cases hok : to_uint8 txn.result = ku8MBSuccess
  · rw [read_data_registers_success txn now self hok]
    simp [hok, decode_data]
  · rw [read_data_registers_failure txn now self hok]
    simp [hok, reset_data]

/-- Witness for C7: the successful read of `sample_data_block` at time 1000 returns
true, marks the controller connected and records the time; the timed-out read
returns false and marks it disconnected. -/
theorem read_data_registers_reports_witness :
    ((read_data_registers (Transaction.ok sample_data_block) 1000 zeroed).1 = true
      ∧ (read_data_registers (Transaction.ok sample_data_block) 1000
          zeroed).2.renogy_data.controller_connected = true
      ∧ (read_data_registers (Transaction.ok sample_data_block) 1000
          zeroed).2.renogy_data.last_update_time = 1000)
    ∧ ((read_data_registers (Transaction.failed ku8MBResponseTimedOut) 2000
          sample_session).1 = false
      ∧ (read_data_registers (Transaction.failed ku8MBResponseTimedOut) 2000
          sample_session).2.renogy_data.controller_connected = false) :=
  ⟨⟨by decide,
    (read_data_registers_reports (Transaction.ok sample_data_block) 1000 zeroed).2.1
      (by decide)⟩,
   ⟨by decide,
    (read_data_registers_reports (Transaction.failed ku8MBResponseTimedOut) 2000
      sample_session).2.2 (by decide)⟩⟩

/-- C8: starting from an object whose telemetry snapshot is zeroed, after any finite
sequence of `read_data_registers`, `read_info_registers`, `set_load` and `update`
calls, with arbitrary transaction outcomes, register contents and clock readings,
whenever `controller_connected` is false the fields `battery_voltage`,
`battery_charging_amps`, `battery_charging_watts`, `battery_soc`,
`controller_temperature`, `battery_temperature`, `solar_panel_amps` and
`solar_panel_watts` are all zero. -/
theorem disconnected_implies_volatile_zero (self : RenogyChargeController)
    (calls : List Call) (hzero : self.renogy_data = zeroed_data)
    (hoff : (run self calls).renogy_data.controller_connected = false) :
    (run self calls).renogy_data.battery_voltage = 0
    ∧ (run self calls).renogy_data.battery_charging_amps = 0
    ∧ (run self calls).renogy_data.battery_charging_watts = 0
    ∧ (run self calls).renogy_data.battery_soc = 0
    ∧ (run self calls).renogy_data.controller_temperature = 0
    ∧ (run self calls).renogy_data.battery_temperature = 0
    ∧ (run self calls).renogy_data.solar_panel_amps = 0
    ∧ (run self calls).renogy_data.solar_panel_watts = 0 := by
  refine run_disconnected_cleared calls self ?_ hoff
  intro _
  rw [hzero]
  simp [volatile_cleared, zeroed_data]

/-- Witness for C8: the session `sample_calls` ends disconnected, with the battery
voltage and the panel power cleared. -/
theorem disconnected_implies_volatile_zero_witness :
    zeroed.renogy_data = zeroed_data
    ∧ (run zeroed sample_calls).renogy_data.controller_connected = false
    ∧ (run zeroed sample_calls).renogy_data.battery_voltage = 0
    ∧ (run zeroed sample_calls).renogy_data.solar_panel_watts = 0 :=
  have h := disconnected_implies_volatile_zero zeroed sample_calls rfl (by decide)
  ⟨rfl, by decide, h.1, h.2.2.2.2.2.2.2⟩

/-- C10, refuted as stated: after the successful read of `fractional_data_block`
(registers 1 and 2 holding 241 and 53) `battery_voltage` is not `241 / 10`,
`battery_charging_amps` is not `53 / 10`, and `battery_charging_watts` is neither the
exact product of the two stored values nor `241 * 53 / 100`. -/
theorem battery_charging_watts_inexact_sample :
    (read_data_registers (Transaction.ok fractional_data_block) 1000 zeroed).1 = true
    ∧ (Transaction.ok fractional_data_block).getResponseBuffer 1 = 241
    ∧ (Transaction.ok fractional_data_block).getResponseBuffer 2 = 53
    ∧ (read_data_registers (Transaction.ok fractional_data_block) 1000
        zeroed).2.renogy_data.battery_voltage ≠ 241 / 10
    ∧ (read_data_registers (Transaction.ok fractional_data_block) 1000
        zeroed).2.renogy_data.battery_charging_amps ≠ 53 / 10
    ∧ (read_data_registers (Transaction.ok fractional_data_block) 1000
        zeroed).2.renogy_data.battery_charging_watts
        ≠ (read_data_registers (Transaction.ok fractional_data_block) 1000
            zeroed).2.renogy_data.battery_voltage
          * (read_data_registers (Transaction.ok fractional_data_block) 1000
            zeroed).2.renogy_data.battery_charging_amps
    ∧ (read_data_registers (Transaction.ok fractional_data_block) 1000
        zeroed).2.renogy_data.battery_charging_watts ≠ 241 * 53 / 100 := by
  decide!

/-- C10, amended: after a successful `read_data_registers` on 16-bit registers,
`battery_voltage` and `battery_charging_amps` are the `double` products of registers
1 and 2 with the literal `.1`, rounded to `float`, and `battery_charging_watts` is
the product of these two stored values rounded to `float`.  Against exact rational
arithmetic the two readings are within a relative error of `2 ^ (-23)` of
`raw[1] / 10` and `raw[2] / 10`, and the power is within a relative error of
`2 ^ (-21)` of `raw[1] * raw[2] / 100`. -/
theorem battery_charging_watts_rounded (txn : Transaction) (now : ℤ)
    (self : RenogyChargeController) (hok : to_uint8 txn.result = ku8MBSuccess)
    (h16 : ∀ j, txn.getResponseBuffer j < 65536) :
    (read_data_registers txn now self).2.renogy_data.battery_voltage
        = toFloat (toDouble ((txn.getResponseBuffer 1 : ℚ) * toDouble (1 / 10)))
    ∧ (read_data_registers txn now self).2.renogy_data.battery_charging_amps
        = toFloat (toDouble ((txn.getResponseBuffer 2 : ℚ) * toDouble (1 / 10)))
    ∧ (read_data_registers txn now self).2.renogy_data.battery_charging_watts
        = toFloat ((read_data_registers txn now self).2.renogy_data.battery_voltage
            * (read_data_registers txn now self).2.renogy_data.battery_charging_amps)
    ∧ |(read_data_registers txn now self).2.renogy_data.battery_voltage
          - (txn.getResponseBuffer 1 : ℚ) / 10|
        ≤ (txn.getResponseBuffer 1 : ℚ) / 10 / 2 ^ 23
    ∧ |(read_data_registers txn now self).2.renogy_data.battery_charging_amps
          - (txn.getResponseBuffer 2 : ℚ) / 10|
        ≤ (txn.getResponseBuffer 2 : ℚ) / 10 / 2 ^ 23
    ∧ |(read_data_registers txn now self).2.renogy_data.battery_charging_watts
          - (txn.getResponseBuffer 1 : ℚ) * (txn.getResponseBuffer 2 : ℚ) / 100|
        ≤ (txn.getResponseBuffer 1 : ℚ) * (txn.getResponseBuffer 2 : ℚ) / 100 / 2 ^ 21 := by
  have hv : (read_data_registers txn now self).2.renogy_data.battery_voltage
      = scale_tenth (txn.getResponseBuffer 1) := by
    rw [read_data_registers_success txn now self hok]
    simp only [decode_data]
    rw [data_register txn h16 1 (by decide)]
  have ha : (read_data_registers txn now self).2.renogy_data.battery_charging_amps
      = scale_tenth (txn.getResponseBuffer 2) := by
    rw [read_data_registers_success txn now self hok]
    simp only [decode_data]
    rw [data_register txn h16 2 (by decide)]
  have hw : (read_data_registers txn now self).2.renogy_data.battery_charging_watts
      = toFloat (scale_tenth (txn.getResponseBuffer 1)
          * scale_tenth (txn.getResponseBuffer 2)) := by
    rw [read_data_registers_success txn now self hok]
    simp only [decode_data]
    rw [data_register txn h16 1 (by decide), data_register txn h16 2 (by decide)]
  rw [hw, hv, ha]
  obtain ⟨v1, v2⟩ := scale_tenth_bounds (txn.getResponseBuffer 1)
  obtain ⟨a1, a2⟩ := scale_tenth_bounds (txn.getResponseBuffer 2)
  obtain ⟨w1, w2⟩ := tenth_product_bounds (txn.getResponseBuffer 1) (txn.getResponseBuffer 2)
  refine ⟨rfl, rfl, rfl, ?_, ?_, ?_⟩
  · rw [abs_le]; constructor <;> linarith
  · rw [abs_le]; constructor <;> linarith
  · rw [abs_le]; constructor <;> linarith

/-- Witness for C10 amended: registers 1 and 2 of `sample_data_block` hold 240 and 50,
and the values stored are exactly 24, 5 and 120. -/
theorem battery_charging_watts_rounded_witness :
    (Transaction.ok sample_data_block).getResponseBuffer 1 = 240
    ∧ (Transaction.ok sample_data_block).getResponseBuffer 2 = 50
    ∧ (read_data_registers (Transaction.ok sample_data_block) 1000
        zeroed).2.renogy_data.battery_voltage = 24
    ∧ (read_data_registers (Transaction.ok sample_data_block) 1000
        zeroed).2.renogy_data.battery_charging_amps = 5
    ∧ (read_data_registers (Transaction.ok sample_data_block) 1000
        zeroed).2.renogy_data.battery_charging_watts = 120
    ∧ |(read_data_registers (Transaction.ok sample_data_block) 1000
          zeroed).2.renogy_data.battery_charging_watts
          - ((Transaction.ok sample_data_block).getResponseBuffer 1 : ℚ)
            * ((Transaction.ok sample_data_block).getResponseBuffer 2 : ℚ) / 100|
        ≤ ((Transaction.ok sample_data_block).getResponseBuffer 1 : ℚ)
            * ((Transaction.ok sample_data_block).getResponseBuffer 2 : ℚ) / 100 / 2 ^ 21 :=
  have h := battery_charging_watts_rounded (Transaction.ok sample_data_block) 1000 zeroed
    (by decide) (Transaction.ok_word16 sample_data_block (by decide))
  ⟨by decide, by decide, by decide!, by decide!, by decide!, h.2.2.2.2.2⟩

/-- C11, refuted as stated: after the successful read of `sample_data_block`
(register 4 holding 121, register 13 holding 520) `load_voltage` is not `121 / 10`
and `max_charging_amps_today` is not `520 / 100`. -/
theorem scaled_fields_inexact_sample :
    (read_data_registers (Transaction.ok sample_data_block) 1000 zeroed).1 = true
    ∧ (Transaction.ok sample_data_block).getResponseBuffer 4 = 121
    ∧ (read_data_registers (Transaction.ok sample_data_block) 1000
        zeroed).2.renogy_data.load_voltage ≠ 121 / 10
    ∧ (Transaction.ok sample_data_block).getResponseBuffer 13 = 520
    ∧ (read_data_registers (Transaction.ok sample_data_block) 1000
        zeroed).2.renogy_data.max_charging_amps_today ≠ 520 / 100 := by
  decide!

/-- C11, amended: after a successful `read_data_registers` on 16-bit registers, each
fractional field is the `double` product of its register with the literal `.1`
(registers 1, 2, 4, 7, 11, 12 and 14) or `.01` (registers 5, 8 and 13), rounded to
`float`; against exact rational arithmetic it is within a relative error of
`2 ^ (-23)` of `raw / 10`, respectively `raw / 100`. -/
theorem scaled_fields_rounded (txn : Transaction) (now : ℤ) (self : RenogyChargeController)
    (hok : to_uint8 txn.result = ku8MBSuccess)
    (h16 : ∀ j, txn.getResponseBuffer j < 65536) :
    ((read_data_registers txn now self).2.renogy_data.battery_voltage
        = toFloat (toDouble ((txn.getResponseBuffer 1 : ℚ) * toDouble (1 / 10)))
      ∧ |(read_data_registers txn now self).2.renogy_data.battery_voltage
            - (txn.getResponseBuffer 1 : ℚ) / 10|
          ≤ (txn.getResponseBuffer 1 : ℚ) / 10 / 2 ^ 23)
    ∧ ((read_data_registers txn now self).2.renogy_data.battery_charging_amps
        = toFloat (toDouble ((txn.getResponseBuffer 2 : ℚ) * toDouble (1 / 10)))
      ∧ |(read_data_registers txn now self).2.renogy_data.battery_charging_amps
            - (txn.getResponseBuffer 2 : ℚ) / 10|
          ≤ (txn.getResponseBuffer 2 : ℚ) / 10 / 2 ^ 23)
    ∧ ((read_data_registers txn now self).2.renogy_data.load_voltage
        = toFloat (toDouble ((txn.getResponseBuffer 4 : ℚ) * toDouble (1 / 10)))
      ∧ |(read_data_registers txn now self).2.renogy_data.load_voltage
            - (txn.getResponseBuffer 4 : ℚ) / 10|
          ≤ (txn.getResponseBuffer 4 : ℚ) / 10 / 2 ^ 23)
    ∧ ((read_data_registers txn now self).2.renogy_data.load_amps
        = toFloat (toDouble ((txn.getResponseBuffer 5 : ℚ) * toDouble (1 / 100)))
      ∧ |(read_data_registers txn now self).2.renogy_data.load_amps
            - (txn.getResponseBuffer 5 : ℚ) / 100|
          ≤ (txn.getResponseBuffer 5 : ℚ) / 100 / 2 ^ 23)
    ∧ ((read_data_registers txn now self).2.renogy_data.solar_panel_voltage
        = toFloat (toDouble ((txn.getResponseBuffer 7 : ℚ) * toDouble (1 / 10)))
      ∧ |(read_data_registers txn now self).2.renogy_data.solar_panel_voltage
            - (txn.getResponseBuffer 7 : ℚ) / 10|
          ≤ (txn.getResponseBuffer 7 : ℚ) / 10 / 2 ^ 23)
    ∧ ((read_data_registers txn now self).2.renogy_data.solar_panel_amps
        = toFloat (toDouble ((txn.getResponseBuffer 8 : ℚ) * toDouble (1 / 100)))
      ∧ |(read_data_registers txn now self).2.renogy_data.solar_panel_amps
            - (txn.getResponseBuffer 8 : ℚ) / 100|
          ≤ (txn.getResponseBuffer 8 : ℚ) / 100 / 2 ^ 23)
    ∧ ((read_data_registers txn now self).2.renogy_data.min_battery_voltage_today
        = toFloat (toDouble ((txn.getResponseBuffer 11 : ℚ) * toDouble (1 / 10)))
      ∧ |(read_data_registers txn now self).2.renogy_data.min_battery_voltage_today
            - (txn.getResponseBuffer 11 : ℚ) / 10|
          ≤ (txn.getResponseBuffer 11 : ℚ) / 10 / 2 ^ 23)
    ∧ ((read_data_registers txn now self).2.renogy_data.max_battery_voltage_today
        = toFloat (toDouble ((txn.getResponseBuffer 12 : ℚ) * toDouble (1 / 10)))
      ∧ |(read_data_registers txn now self).2.renogy_data.max_battery_voltage_today
            - (txn.getResponseBuffer 12 : ℚ) / 10|
          ≤ (txn.getResponseBuffer 12 : ℚ) / 10 / 2 ^ 23)
    ∧ ((read_data_registers txn now self).2.renogy_data.max_charging_amps_today
        = toFloat (toDouble ((txn.getResponseBuffer 13 : ℚ) * toDouble (1 / 100)))
      ∧ |(read_data_registers txn now self).2.renogy_data.max_charging_amps_today
            - (txn.getResponseBuffer 13 : ℚ) / 100|
          ≤ (txn.getResponseBuffer 13 : ℚ) / 100 / 2 ^ 23)
    ∧ ((read_data_registers txn now self).2.renogy_data.max_discharging_amps_today
        = toFloat (toDouble ((txn.getResponseBuffer 14 : ℚ) * toDouble (1 / 10)))
      ∧ |(read_data_registers txn now self).2.renogy_data.max_discharging_amps_today
            - (txn.getResponseBuffer 14 : ℚ) / 10|
          ≤ (txn.getResponseBuffer 14 : ℚ) / 10 / 2 ^ 23) := by
  obtain ⟨h1, h2, h4, h5, h7, h8, h11, h12, h13, h14⟩ :=
    read_data_registers_scaled txn now self hok h16
  rw [h1, h2, h4, h5, h7, h8, h11, h12, h13, h14]
  exact ⟨⟨rfl, scale_tenth_error _⟩,
    ⟨rfl, scale_tenth_error _⟩,
    ⟨rfl, scale_tenth_error _⟩,
    ⟨rfl, scale_hundredth_error _⟩,
    ⟨rfl, scale_tenth_error _⟩,
    ⟨rfl, scale_hundredth_error _⟩,
    ⟨rfl, scale_tenth_error _⟩,
    ⟨rfl, scale_tenth_error _⟩,
    ⟨rfl, scale_hundredth_error _⟩,
    ⟨rfl, scale_tenth_error _⟩⟩

/-- Witness for C11 amended: register 7 of `sample_data_block` holds 300 and the panel
voltage stored is exactly 30, within the bound; register 4 holds 121 and the load
voltage stored is within `2 ^ (-23)` of 12.1. -/
theorem scaled_fields_rounded_witness :
    (Transaction.ok sample_data_block).getResponseBuffer 7 = 300
    ∧ (read_data_registers (Transaction.ok sample_data_block) 1000
        zeroed).2.renogy_data.solar_panel_voltage = 30
    ∧ |(read_data_registers (Transaction.ok sample_data_block) 1000
        zeroed).2.renogy_data.load_voltage
          - ((Transaction.ok sample_data_block).getResponseBuffer 4 : ℚ) / 10|
        ≤ ((Transaction.ok sample_data_block).getResponseBuffer 4 : ℚ) / 10 / 2 ^ 23 :=
  have h := scaled_fields_rounded (Transaction.ok sample_data_block) 1000 zeroed
    (by decide) (Transaction.ok_word16 sample_data_block (by decide))
  ⟨by decide, by decide!, h.2.2.1.2⟩

/-- C12, refuted as stated: after the successful read of `sample_data_block`, whose
register 3 holds `3 * 256 + 77`, the temperatures are 3 and 77 but
`controller_temperatureF` is not `37.4` and `battery_temperatureF` is not `170.6`. -/
theorem fahrenheit_inexact_sample :
    (read_data_registers (Transaction.ok sample_data_block) 1000 zeroed).1 = true
    ∧ (Transaction.ok sample_data_block).getResponseBuffer 3 = 3 * 256 + 77
    ∧ (read_data_registers (Transaction.ok sample_data_block) 1000
        zeroed).2.renogy_data.controller_temperature = 3
    ∧ (read_data_registers (Transaction.ok sample_data_block) 1000
        zeroed).2.renogy_data.battery_temperature = 77
    ∧ (read_data_registers (Transaction.ok sample_data_block) 1000
        zeroed).2.renogy_data.controller_temperatureF ≠ 3 * (9 / 5) + 32
    ∧ (read_data_registers (Transaction.ok sample_data_block) 1000
        zeroed).2.renogy_data.battery_temperatureF ≠ 77 * (9 / 5) + 32 := by
  decide!

/-- C12, amended: after a successful `read_data_registers`, `controller_temperatureF`
is `controller_temperature * 1.8 + 32` evaluated in `double` and rounded to `float`;
for every stored temperature this is the `float` nearest to the exact value
`controller_temperature * 9 / 5 + 32`, hence within a relative error of `2 ^ (-24)`
of it.  The same holds for `battery_temperatureF` and `battery_temperature`. -/
theorem fahrenheit_rounded (txn : Transaction) (now : ℤ) (self : RenogyChargeController)
    (hok : to_uint8 txn.result = ku8MBSuccess) :
    ((read_data_registers txn now self).2.renogy_data.controller_temperatureF
        = toFloat (toDouble (toDouble
            (((read_data_registers txn now self).2.renogy_data.controller_temperature : ℚ) * toDouble (9 / 5)) + 32))
      ∧ (read_data_registers txn now self).2.renogy_data.controller_temperatureF
        = toFloat (((read_data_registers txn now self).2.renogy_data.controller_temperature : ℚ) * (9 / 5) + 32)
      ∧ |(read_data_registers txn now self).2.renogy_data.controller_temperatureF
            - (((read_data_registers txn now self).2.renogy_data.controller_temperature : ℚ) * (9 / 5) + 32)|
          ≤ (((read_data_registers txn now self).2.renogy_data.controller_temperature : ℚ) * (9 / 5) + 32) / 2 ^ 24)
    ∧ ((read_data_registers txn now self).2.renogy_data.battery_temperatureF
        = toFloat (toDouble (toDouble
            (((read_data_registers txn now self).2.renogy_data.battery_temperature : ℚ) * toDouble (9 / 5)) + 32))
      ∧ (read_data_registers txn now self).2.renogy_data.battery_temperatureF
        = toFloat (((read_data_registers txn now self).2.renogy_data.battery_temperature : ℚ) * (9 / 5) + 32)
      ∧ |(read_data_registers txn now self).2.renogy_data.battery_temperatureF
            - (((read_data_registers txn now self).2.renogy_data.battery_temperature : ℚ) * (9 / 5) + 32)|
          ≤ (((read_data_registers txn now self).2.renogy_data.battery_temperature : ℚ) * (9 / 5) + 32) / 2 ^ 24) := by
  rw [read_data_registers_success txn now self hok]
  simp only [decode_data]
  refine ⟨⟨rfl, fahrenheit_uint8 _, ?_⟩, ⟨rfl, fahrenheit_uint8 _, ?_⟩⟩
  · rw [fahrenheit_uint8]
    exact toFloat_error _ (by positivity)
  · rw [fahrenheit_uint8]
    exact toFloat_error _ (by positivity)

/-- Witness for C12 amended: for the temperature word `3 * 256 + 77` of
`sample_data_block` the values stored are `4902093 / 2 ^ 17` (37.4000015...) and
`5590221 / 2 ^ 15` (170.6000061...), the floats nearest to 37.4 and 170.6. -/
theorem fahrenheit_rounded_witness :
    to_uint8 (Transaction.ok sample_data_block).result = ku8MBSuccess
    ∧ (read_data_registers (Transaction.ok sample_data_block) 1000
        zeroed).2.renogy_data.controller_temperatureF = 4902093 / 2 ^ 17
    ∧ (read_data_registers (Transaction.ok sample_data_block) 1000
        zeroed).2.renogy_data.battery_temperatureF = 5590221 / 2 ^ 15
    ∧ (read_data_registers (Transaction.ok sample_data_block) 1000
        zeroed).2.renogy_data.controller_temperatureF
        = toFloat (((read_data_registers (Transaction.ok sample_data_block) 1000
        zeroed).2.renogy_data.controller_temperature : ℚ) * (9 / 5) + 32) :=
  ⟨by decide, by decide!, by decide!,
    (fahrenheit_rounded (Transaction.ok sample_data_block) 1000 zeroed (by decide)).1.2.1⟩

/-- C13: `set_load true` issues exactly one request, the single-register write of
value 1 to address `0x10A`, and `set_load false` exactly one, the write of value 0 to
the same address; in both cases the telemetry snapshot, the identity snapshot, the
transmit buffer and the counter are unchanged. -/
theorem set_load_effect (self : RenogyChargeController) :
    ((set_load true self).node.requests
        = self.node.requests ++ [Request.writeSingleRegister 0x10A 1]
      ∧ (set_load true self).renogy_data = self.renogy_data
      ∧ (set_load true self).renogy_info = self.renogy_info
      ∧ (set_load true self).node.transmit_buffer = self.node.transmit_buffer
      ∧ (set_load true self).i = self.i)
    ∧ ((set_load false self).node.requests
        = self.node.requests ++ [Request.writeSingleRegister 0x10A 0]
      ∧ (set_load false self).renogy_data = self.renogy_data
      ∧ (set_load false self).renogy_info = self.renogy_info
      ∧ (set_load false self).node.transmit_buffer = self.node.transmit_buffer
      ∧ (set_load false self).i = self.i) := by
  simp [set_load, ModbusMaster.issue]

/-- C14, refuted as stated: the same successful read of `sample_info_block` at the same
time, from the prior snapshots of `zeroed` and of `named_session`, gives two
different identity snapshots: `controller_name` is 0 in one and 7 in the other, and
although both hold the software version `"1234"`, the bytes of `software_version`
behind its terminator differ. -/
theorem read_info_registers_keeps_controller_name_sample :
    (read_info_registers (Transaction.ok sample_info_block) 1000 zeroed).1 = true
    ∧ (read_info_registers (Transaction.ok sample_info_block) 1000 named_session).1 = true
    ∧ (read_info_registers (Transaction.ok sample_info_block) 1000
        zeroed).2.renogy_info.controller_name = 0
    ∧ (read_info_registers (Transaction.ok sample_info_block) 1000
        named_session).2.renogy_info.controller_name = 7
    ∧ String.mk (c_str (read_info_registers (Transaction.ok sample_info_block) 1000
        zeroed).2.renogy_info.software_version) = "1234"
    ∧ String.mk (c_str (read_info_registers (Transaction.ok sample_info_block) 1000
        named_session).2.renogy_info.software_version) = "1234"
    ∧ (read_info_registers (Transaction.ok sample_info_block) 1000
        zeroed).2.renogy_info.software_version
        ≠ (read_info_registers (Transaction.ok sample_info_block) 1000
        named_session).2.renogy_info.software_version
    ∧ (read_info_registers (Transaction.ok sample_info_block) 1000 zeroed).2.renogy_info
        ≠ (read_info_registers (Transaction.ok sample_info_block) 1000
            named_session).2.renogy_info := by
  decide

/-- C14, amended: after a successful `read_info_registers` every field of the identity
snapshot except `controller_name` has been overwritten, the three string members up
to and including their terminator.  For any two prior objects, the same transaction
and the same current time give the same value to each of the seven numeric fields
and the same string to `software_version`, `hardware_version` and `serial_number`;
the bytes of a string member behind the terminator written and `controller_name`
keep their values from before the call. -/
theorem read_info_registers_overwrites (txn : Transaction) (now : ℤ)
    (self1 self2 : RenogyChargeController) (hok : to_uint8 txn.result = ku8MBSuccess) :
    (read_info_registers txn now self1).2.renogy_info.voltage_rating
        = (read_info_registers txn now self2).2.renogy_info.voltage_rating
    ∧ (read_info_registers txn now self1).2.renogy_info.amp_rating
        = (read_info_registers txn now self2).2.renogy_info.amp_rating
    ∧ (read_info_registers txn now self1).2.renogy_info.discharge_amp_rating
        = (read_info_registers txn now self2).2.renogy_info.discharge_amp_rating
    ∧ (read_info_registers txn now self1).2.renogy_info.type
        = (read_info_registers txn now self2).2.renogy_info.type
    ∧ (read_info_registers txn now self1).2.renogy_info.modbus_address
        = (read_info_registers txn now self2).2.renogy_info.modbus_address
    ∧ (read_info_registers txn now self1).2.renogy_info.wattage_rating
        = (read_info_registers txn now self2).2.renogy_info.wattage_rating
    ∧ (read_info_registers txn now self1).2.renogy_info.last_update_time
        = (read_info_registers txn now self2).2.renogy_info.last_update_time
    ∧ (c_str (read_info_registers txn now self1).2.renogy_info.software_version
          = c_str (read_info_registers txn now self2).2.renogy_info.software_version
      ∧ (read_info_registers txn now self1).2.renogy_info.software_version.drop
            ((c_str (read_info_registers txn now self1).2.renogy_info.software_version).length + 1)
          = self1.renogy_info.software_version.drop
            ((c_str (read_info_registers txn now self1).2.renogy_info.software_version).length + 1))
    ∧ (c_str (read_info_registers txn now self1).2.renogy_info.hardware_version
          = c_str (read_info_registers txn now self2).2.renogy_info.hardware_version
      ∧ (read_info_registers txn now self1).2.renogy_info.hardware_version.drop
            ((c_str (read_info_registers txn now self1).2.renogy_info.hardware_version).length + 1)
          = self1.renogy_info.hardware_version.drop
            ((c_str (read_info_registers txn now self1).2.renogy_info.hardware_version).length + 1))
    ∧ (c_str (read_info_registers txn now self1).2.renogy_info.serial_number
          = c_str (read_info_registers txn now self2).2.renogy_info.serial_number
      ∧ (read_info_registers txn now self1).2.renogy_info.serial_number.drop
            ((c_str (read_info_registers txn now self1).2.renogy_info.serial_number).length + 1)
          = self1.renogy_info.serial_number.drop
            ((c_str (read_info_registers txn now self1).2.renogy_info.serial_number).length + 1))
    ∧ (read_info_registers txn now self1).2.renogy_info.controller_name
        = self1.renogy_info.controller_name
    ∧ (read_info_registers txn now self2).2.renogy_info.controller_name
        = self2.renogy_info.controller_name := by
  rw [read_info_registers_success txn now self1 hok,
    read_info_registers_success txn now self2 hok]
  simp only [decode_info, c_str_version, strcpy_tail]
  simp

/-- Witness for C14 amended: the reads of `sample_info_block` from `zeroed` and from
`named_session` give the same software version string, and the second keeps the
product-model code 7 and the bytes behind the new terminator. -/
theorem read_info_registers_overwrites_witness :
    to_uint8 (Transaction.ok sample_info_block).result = ku8MBSuccess
    ∧ c_str (read_info_registers (Transaction.ok sample_info_block) 1000
        named_session).2.renogy_info.software_version
        = c_str (read_info_registers (Transaction.ok sample_info_block) 1000
        zeroed).2.renogy_info.software_version
    ∧ (read_info_registers (Transaction.ok sample_info_block) 1000
        named_session).2.renogy_info.software_version.drop
          ((c_str (read_info_registers (Transaction.ok sample_info_block) 1000
        named_session).2.renogy_info.software_version).length + 1)
        = named_session.renogy_info.software_version.drop
          ((c_str (read_info_registers (Transaction.ok sample_info_block) 1000
        named_session).2.renogy_info.software_version).length + 1)
    ∧ (read_info_registers (Transaction.ok sample_info_block) 1000
        named_session).2.renogy_info.controller_name
        = named_session.renogy_info.controller_name :=
  have h := read_info_registers_overwrites (Transaction.ok sample_info_block) 1000
    named_session zeroed (by decide)
  ⟨by decide, h.2.2.2.2.2.2.2.1.1, h.2.2.2.2.2.2.2.1.2, h.2.2.2.2.2.2.2.2.2.2.1⟩

/-- C15, refuted as stated: after the successful read of `wide_address_info_block`,
whose register 16 holds `0x01FF = 511`, `modbus_address` is 255. -/
theorem modbus_address_low_byte_sample :
    (read_info_registers (Transaction.ok wide_address_info_block) 1000 zeroed).1 = true
    ∧ (Transaction.ok wide_address_info_block).getResponseBuffer 16 = 511
    ∧ (read_info_registers (Transaction.ok wide_address_info_block) 1000
        zeroed).2.renogy_info.modbus_address = 255
    ∧ (read_info_registers (Transaction.ok wide_address_info_block) 1000
        zeroed).2.renogy_info.modbus_address
        ≠ (Transaction.ok wide_address_info_block).getResponseBuffer 16 := by
  decide

/-- C15, amended: for every 16-bit value in info register 16, a successful
`read_info_registers` stores in `modbus_address` the low byte of that value; a value
up to 255, as every Modbus device address is, is stored unchanged. -/
theorem modbus_address_stored (txn : Transaction) (now : ℤ) (self : RenogyChargeController)
    (hok : to_uint8 txn.result = ku8MBSuccess)
    (h16 : txn.getResponseBuffer 16 < 65536) :
    (read_info_registers txn now self).2.renogy_info.modbus_address
        = txn.getResponseBuffer 16 % 256
    ∧ (txn.getResponseBuffer 16 < 256 →
        (read_info_registers txn now self).2.renogy_info.modbus_address
          = txn.getResponseBuffer 16) := by
  rw [read_info_registers_success txn now self hok]
  simp only [decode_info]
  rw [copy_registers_getD _ _ 16 (by decide), to_uint16_of_lt h16]
  exact ⟨rfl, fun h => to_uint8_of_lt h⟩

/-- Witness for C15 amended: register 16 of `sample_info_block` holds 255 and is stored
unchanged. -/
theorem modbus_address_stored_witness :
    (Transaction.ok sample_info_block).getResponseBuffer 16 = 255
    ∧ (read_info_registers (Transaction.ok sample_info_block) 1000
        zeroed).2.renogy_info.modbus_address
        = (Transaction.ok sample_info_block).getResponseBuffer 16 :=
  ⟨by decide,
    (modbus_address_stored (Transaction.ok sample_info_block) 1000 zeroed (by decide)
      (by decide)).2 (by decide)⟩

/-- C16: the telemetry snapshot produced by a successful `read_data_registers` does not
depend on data register 10 or on data registers 24 to 34: two successful transactions
that agree on registers 0-9 and 11-23, with the same prior object and current time,
yield identical snapshots. -/
theorem read_data_registers_ignores_reserved (txn1 txn2 : Transaction) (now : ℤ)
    (self : RenogyChargeController) (hok1 : to_uint8 txn1.result = ku8MBSuccess)
    (hok2 : to_uint8 txn2.result = ku8MBSuccess)
    (hagree : ∀ j, j < 24 → j ≠ 10 → txn1.getResponseBuffer j = txn2.getResponseBuffer j) :
    (read_data_registers txn1 now self).2.renogy_data
      = (read_data_registers txn2 now self).2.renogy_data := by
  rw [read_data_registers_success txn1 now self hok1,
    read_data_registers_success txn2 now self hok2]
  have e : ∀ j, j < 24 → j ≠ 10 →
      (copy_registers num_data_registers txn1).getD j 0
        = (copy_registers num_data_registers txn2).getD j 0 := by
    intro j hj hne
    have hlt : j < num_data_registers := by
      simp only [num_data_registers]
      omega
    rw [copy_registers_getD _ _ j hlt, copy_registers_getD _ _ j hlt, hagree j hj hne]
  simp only [decode_data, e 0 (by decide) (by decide), e 1 (by decide) (by decide),
    e 2 (by decide) (by decide), e 3 (by decide) (by decide), e 4 (by decide) (by decide),
    e 5 (by decide) (by decide), e 6 (by decide) (by decide), e 7 (by decide) (by decide),
    e 8 (by decide) (by decide), e 9 (by decide) (by decide), e 11 (by decide) (by decide),
    e 12 (by decide) (by decide), e 13 (by decide) (by decide),
    e 14 (by decide) (by decide), e 15 (by decide) (by decide),
    e 16 (by decide) (by decide), e 17 (by decide) (by decide),
    e 18 (by decide) (by decide), e 19 (by decide) (by decide),
    e 20 (by decide) (by decide), e 21 (by decide) (by decide),
    e 22 (by decide) (by decide), e 23 (by decide) (by decide)]

/-- Witness for C16: `sample_data_block` and `sample_data_block_reserved` differ in
registers 10 and 30 only and give the same telemetry snapshot. -/
theorem read_data_registers_ignores_reserved_witness :
    (Transaction.ok sample_data_block).getResponseBuffer 10
        ≠ (Transaction.ok sample_data_block_reserved).getResponseBuffer 10
    ∧ (Transaction.ok sample_data_block).getResponseBuffer 30
        ≠ (Transaction.ok sample_data_block_reserved).getResponseBuffer 30
    ∧ (read_data_registers (Transaction.ok sample_data_block) 1000 zeroed).2.renogy_data
        = (read_data_registers (Transaction.ok sample_data_block_reserved) 1000
            zeroed).2.renogy_data :=
  ⟨by decide, by decide,
    read_data_registers_ignores_reserved (Transaction.ok sample_data_block)
      (Transaction.ok sample_data_block_reserved) 1000 zeroed (by decide) (by decide)
      (by decide)⟩

/-- C17: for every content of info registers 0 and 1, a successful
`read_info_registers` stores `voltage_rating = 0`, `discharge_amp_rating = 0` and
`wattage_rating = 0`, with `amp_rating` the low byte of register 0 and `type` the low
byte of register 1: the register is narrowed to the `uint8_t raw_data` before it is
divided by 256. -/
theorem read_info_registers_ratings_narrowed (txn : Transaction) (now : ℤ)
    (self : RenogyChargeController) (hok : to_uint8 txn.result = ku8MBSuccess) :
    (read_info_registers txn now self).2.renogy_info.voltage_rating = 0
    ∧ (read_info_registers txn now self).2.renogy_info.discharge_amp_rating = 0
    ∧ (read_info_registers txn now self).2.renogy_info.wattage_rating = 0
    ∧ (read_info_registers txn now self).2.renogy_info.amp_rating
        = txn.getResponseBuffer 0 % 256
    ∧ (read_info_registers txn now self).2.renogy_info.type
        = txn.getResponseBuffer 1 % 256 := by
  rw [read_info_registers_success txn now self hok]
  simp only [decode_info]
  rw [copy_registers_getD _ _ 0 (by decide), copy_registers_getD _ _ 1 (by decide)]
  have hv : ∀ x : ℕ, to_uint8 (to_uint8 x / 256) = 0 := by
    intro x
    simp only [to_uint8]
    omega
  have hm : ∀ x : ℕ, to_uint8 (to_uint8 (to_uint16 x) % 256) = x % 256 := by
    intro x
    simp only [to_uint8, to_uint16]
    omega
  refine ⟨hv _, hv _, ?_, hm _, hm _⟩
  rw [hv]
  simp [toFloat, roundBin]

/-- Witness for C17: for the rating words `12 * 256 + 30` and `20 * 256 + 0` of
`sample_info_block` the wattage rating stored is 0 and the amp rating 30. -/
theorem read_info_registers_ratings_narrowed_witness :
    to_uint8 (Transaction.ok sample_info_block).result = ku8MBSuccess
    ∧ (Transaction.ok sample_info_block).getResponseBuffer 0 = 12 * 256 + 30
    ∧ (read_info_registers (Transaction.ok sample_info_block) 1000
        zeroed).2.renogy_info.wattage_rating = 0
    ∧ (read_info_registers (Transaction.ok sample_info_block) 1000
        zeroed).2.renogy_info.amp_rating = (12 * 256 + 30) % 256 :=
  have h := read_info_registers_ratings_narrowed (Transaction.ok sample_info_block) 1000
    zeroed (by decide)
  ⟨by decide, by decide, h.2.2.1, h.2.2.2.1⟩

/-- C18: for 16-bit register values, each of the strings that a successful
`read_info_registers` builds for `software_version`, `hardware_version` and
`serial_number` has between 2 and 10 characters, so that with its terminator it fits
the 40-byte working buffer and the 40-byte destination field: a destination of 40
bytes is still 40 bytes long afterwards. -/
theorem read_info_registers_string_lengths (txn : Transaction) (now : ℤ)
    (self : RenogyChargeController) (hok : to_uint8 txn.result = ku8MBSuccess)
    (h16 : ∀ j, txn.getResponseBuffer j < 65536) :
    (2 ≤ (c_str (read_info_registers txn now self).2.renogy_info.software_version).length
      ∧ (c_str (read_info_registers txn now self).2.renogy_info.software_version).length ≤ 10
      ∧ (c_str (read_info_registers txn now self).2.renogy_info.software_version).length + 1 ≤ buffer_size
      ∧ (self.renogy_info.software_version.length = buffer_size →
          (read_info_registers txn now self).2.renogy_info.software_version.length = buffer_size))
    ∧ (2 ≤ (c_str (read_info_registers txn now self).2.renogy_info.hardware_version).length
      ∧ (c_str (read_info_registers txn now self).2.renogy_info.hardware_version).length ≤ 10
      ∧ (c_str (read_info_registers txn now self).2.renogy_info.hardware_version).length + 1 ≤ buffer_size
      ∧ (self.renogy_info.hardware_version.length = buffer_size →
          (read_info_registers txn now self).2.renogy_info.hardware_version.length = buffer_size))
    ∧ (2 ≤ (c_str (read_info_registers txn now self).2.renogy_info.serial_number).length
      ∧ (c_str (read_info_registers txn now self).2.renogy_info.serial_number).length ≤ 10
      ∧ (c_str (read_info_registers txn now self).2.renogy_info.serial_number).length + 1 ≤ buffer_size
      ∧ (self.renogy_info.serial_number.length = buffer_size →
          (read_info_registers txn now self).2.renogy_info.serial_number.length = buffer_size)) := by
  rw [read_info_registers_success txn now self hok]
  simp only [decode_info, c_str_version, buffer_size]
  rw [info_register txn h16 10 (by decide), info_register txn h16 11 (by decide),
    info_register txn h16 12 (by decide), info_register txn h16 13 (by decide),
    info_register txn h16 14 (by decide), info_register txn h16 15 (by decide)]
  obtain ⟨s1, s2⟩ := strcat_itoa_length _ _ (h16 10) (h16 11)
  obtain ⟨v1, v2⟩ := strcat_itoa_length _ _ (h16 12) (h16 13)
  obtain ⟨n1, n2⟩ := strcat_itoa_length _ _ (h16 14) (h16 15)
  refine ⟨⟨s1, s2, by omega, ?_⟩, ⟨v1, v2, by omega, ?_⟩, ⟨n1, n2, by omega, ?_⟩⟩ <;>
    intro h <;> rw [strcpy_length _ _ (by omega)] <;> exact h

/-- Witness for C18: the serial number read from `sample_info_block` (registers 17
and 4242) has 6 characters, and the member is still 40 bytes long. -/
theorem read_info_registers_string_lengths_witness :
    (c_str (read_info_registers (Transaction.ok sample_info_block) 1000
        zeroed).2.renogy_info.serial_number).length = 6
    ∧ (c_str (read_info_registers (Transaction.ok sample_info_block) 1000
        zeroed).2.renogy_info.serial_number).length + 1 ≤ buffer_size
    ∧ (read_info_registers (Transaction.ok sample_info_block) 1000
        zeroed).2.renogy_info.serial_number.length = buffer_size :=
  have h := read_info_registers_string_lengths (Transaction.ok sample_info_block) 1000
    zeroed (by decide) (Transaction.ok_word16 sample_info_block (by decide))
  ⟨by decide, h.2.2.2.2.1, h.2.2.2.2.2 (by decide)⟩

/-- C19: a successful `read_data_registers` overwrites every field of the telemetry
snapshot: for any two prior objects, the same transaction and the same current time
produce identical telemetry snapshots. -/
theorem read_data_registers_overwrites (txn : Transaction) (now : ℤ)
    (self1 self2 : RenogyChargeController) (hok : to_uint8 txn.result = ku8MBSuccess) :
    (read_data_registers txn now self1).2.renogy_data
      = (read_data_registers txn now self2).2.renogy_data := by
  rw [read_data_registers_success txn now self1 hok,
    read_data_registers_success txn now self2 hok]
  rfl

/-- Witness for C19: reading `fractional_data_block` at time 3000 in a fresh session
and in `sample_session`, whose snapshots differ, gives the same snapshot. -/
theorem read_data_registers_overwrites_witness :
    zeroed.renogy_data ≠ sample_session.renogy_data
    ∧ (read_data_registers (Transaction.ok fractional_data_block) 3000 zeroed).2.renogy_data
        = (read_data_registers (Transaction.ok fractional_data_block) 3000
            sample_session).2.renogy_data :=
  ⟨by decide,
    read_data_registers_overwrites (Transaction.ok fractional_data_block) 3000 zeroed
      sample_session (by decide)⟩

/-- C20: the version encoding is not injective: the distinct register pairs `(1, 23)`
and `(12, 3)` in info registers 10 and 11 both make a successful
`read_info_registers` store the software version `"123"`, whatever the prior object
and the current time. -/
theorem software_version_not_injective (now1 now2 : ℤ)
    (self1 self2 : RenogyChargeController) :
    ((1, 23) : ℕ × ℕ) ≠ (12, 3)
    ∧ (read_info_registers (Transaction.ok (info_block_with_version 1 23)) now1 self1).1
        = true
    ∧ (read_info_registers (Transaction.ok (info_block_with_version 12 3)) now2 self2).1
        = true
    ∧ String.mk (c_str (read_info_registers (Transaction.ok (info_block_with_version 1 23))
        now1 self1).2.renogy_info.software_version) = "123"
    ∧ String.mk (c_str (read_info_registers (Transaction.ok (info_block_with_version 12 3))
        now2 self2).2.renogy_info.software_version) = "123" := by
  rw [read_info_registers_success _ now1 self1 (by decide),
    read_info_registers_success _ now2 self2 (by decide)]
  refine ⟨by decide, rfl, rfl, ?_, ?_⟩ <;> simp only [decode_info, c_str_version] <;> decide

end Renogy
